import Mathlib

/-!
# webOS System Application Manager (sam): RunningApp and RunningAppList

A shallow embedding of `src/base/RunningApp.cpp` and `src/base/RunningAppList.cpp`.

* C++ objects that are shared through `shared_ptr` live in a heap indexed by
  address (`World.objs`, `World.launchPoints`); a non-null pointer is its
  address, a nullable pointer argument is an `Option`.
* The collaborators reached through singletons (the `ApplicationManager`
  publish bus, the GLib main context) are the explicit state `Services`.
* Every call into a collaborator appends one `Event` to `Services.trace`,
  oldest first; events about a `RunningApp` carry the value the object had at
  the moment of the call.
-/

namespace Sam

/-! ## Data model -/

/-- The life status of a running instance (`LifeStatus` in `RunningApp.h`),
in the order used by `RunningApp::toString`. -/
inductive LifeStatus
  | LifeStatus_STOP
  | LifeStatus_PRELOADING
  | LifeStatus_PRELOADED
  | LifeStatus_SPLASHING
  | LifeStatus_SPLASHED
  | LifeStatus_LAUNCHING
  | LifeStatus_RELAUNCHING
  | LifeStatus_FOREGROUND
  | LifeStatus_BACKGROUND
  | LifeStatus_PAUSING
  | LifeStatus_PAUSED
  | LifeStatus_CLOSING
  deriving DecidableEq, Repr

open LifeStatus

/-- Modelled from the spec: the `AppType` enumeration is declared in a header
outside the source slice; the spec names the native, web and QML variants and
`RunningApp::getLaunchParams` names `AppType_Native_Qml`. -/
inductive AppType
  | AppType_None
  | AppType_Web
  | AppType_Native
  | AppType_Native_Qml
  deriving DecidableEq, Repr

/-- The part of an application descriptor read by the two source files. -/
structure AppDescription where
  appId : String
  appType : AppType
  deriving DecidableEq, Repr

/-- A catalog entry: `getLaunchPointId()`, `getAppDesc()`, `getAppId()`. -/
structure LaunchPoint where
  launchPointId : String
  appDesc : AppDescription
  deriving DecidableEq, Repr

/-- The members of `RunningApp`.  `m_launchPoint` is the address of the shared
catalog entry, `m_registeredApp` the handle of the held request.  The counter
`m_launchCount` is only ever incremented from 0; its C++ type is declared in
`RunningApp.h` and it is modelled as an unbounded natural number. -/
structure RunningApp where
  m_launchPoint : Nat
  m_instanceId : String
  m_displayId : Int
  m_processId : Int
  m_webprocessid : String
  m_isFullWindow : Bool
  m_lifeStatus : LifeStatus
  m_launchCount : Nat
  m_killingTimer : Nat
  m_keepAlive : Bool
  m_noSplash : Bool
  m_spinner : Bool
  m_isHidden : Bool
  m_token : Nat
  m_context : Int
  m_isRegistered : Bool
  m_registeredApp : Nat
  m_preload : String
  deriving DecidableEq, Repr

/-- A JSON value as handled through pbnjson `JValue`; an object keeps its
members in the order they were put. -/
inductive JValue
  | null
  | bool (b : Bool)
  | number (n : Int)
  | string (s : String)
  | object (members : List (String × JValue))

/-- `JValue::put(key, value)`: on an object, replaces the member of that key
or appends a new member; any other value is left as it is. -/
def JValue.put (self : JValue) (key : String) (value : JValue) : JValue :=
  match self with
  | JValue.object members =>
      if members.any (fun m => m.1 == key) then
        JValue.object (members.map (fun m => if m.1 == key then (key, value) else m))
      else
        JValue.object (members ++ [(key, value)])
  | other => other

/-- Modelled from the spec: the error codes are declared in a header outside
the source slice; these are the kinds the spec lists, two of which
(`ErrCode_LAUNCH`, `ErrCode_GENERAL`) are named in `RunningApp.cpp`. -/
inductive ErrCode
  | ErrCode_LAUNCH
  | ErrCode_GENERAL
  | ErrCode_INVALID_PARAM
  deriving DecidableEq, Repr

/-- Modelled from the spec: `LunaTask` is declared outside the source slice.
An incoming client request carries `appId`, `launchPointId`, `instanceId`,
`displayId`, JSON `params`, a `reason`, the request payload and the request
handle (`getRequest()`) through which it is answered. -/
structure LunaTask where
  request : Nat
  appId : String
  launchPointId : String
  instanceId : String
  displayId : Int
  requestPayload : JValue
  params : JValue
  reason : String

/-- What the collaborators were asked to do.  `onAdd` and `onRemove` record
the entry into the registry hooks of the same name; `respond` is
`LS::Message::respond` on a held request handle; `toJson` and
`removeAfterReply` are the calls on the task and on `LunaTaskList` (`error` is
`none` for the overload without error code); `relaunch` and `term` are the
calls of the life handler. -/
inductive Event
  | postGetAppLifeStatus (app : RunningApp)
  | postGetAppLifeEvents (app : RunningApp)
  | postRunning (runningApp : Nat) (app : RunningApp)
  | kill (app : RunningApp)
  | onAdd (runningApp : Nat)
  | onRemove (runningApp : Nat)
  | respond (registeredApp : Nat) (payload : JValue)
  | toJson (lunaTask : LunaTask)
  | removeAfterReply (lunaTask : LunaTask) (error : Option (ErrCode × String))
  | relaunch (app : RunningApp) (lunaTask : LunaTask)
  | term (app : RunningApp) (lunaTask : LunaTask)

/-- A timeout source attached to the GLib main context by `g_timeout_add`. -/
structure GSource where
  id : Nat
  interval : Nat
  deriving DecidableEq, Repr

/-- The process-wide collaborators: the event trace and the GLib main context
(`lastSourceId` is the last source id handed out, `sources` the attached
timeout sources). -/
structure Services where
  trace : List Event
  lastSourceId : Nat
  sources : List GSource

/-- GLib `g_timeout_add`: attaches a new source and returns its id, which GLib
documents to be greater than 0. -/
def g_timeout_add (interval : Nat) (sv : Services) : Nat × Services :=
  (sv.lastSourceId + 1,
    { sv with lastSourceId := sv.lastSourceId + 1,
              sources := sv.sources ++ [{ id := sv.lastSourceId + 1, interval := interval }] })

/-- GLib `g_source_remove`: detaches the source with the given id. -/
def g_source_remove (tag : Nat) (sv : Services) : Services :=
  { sv with sources := sv.sources.filter (fun s => s.id != tag) }

/-- `ApplicationManager::postGetAppLifeStatus(*this)`. -/
def postGetAppLifeStatus (app : RunningApp) (sv : Services) : Services :=
  { sv with trace := sv.trace ++ [Event.postGetAppLifeStatus app] }

/-- `ApplicationManager::postGetAppLifeEvents(*this)`. -/
def postGetAppLifeEvents (app : RunningApp) (sv : Services) : Services :=
  { sv with trace := sv.trace ++ [Event.postGetAppLifeEvents app] }

/-- Modelled from the spec: the constant `TIMEOUT_TRANSITION` is declared in
`RunningApp.h`; the spec gives the implementation default of 15 seconds (GLib
intervals are in milliseconds). -/
def TIMEOUT_TRANSITION : Nat := 15000

/-! ## RunningApp -/

namespace RunningApp

/-- `RunningApp::isTransition(LifeStatus)`. -/
def isTransition : LifeStatus → Bool
  | LifeStatus_STOP => false
  | LifeStatus_PRELOADING => true
  | LifeStatus_PRELOADED => false
  | LifeStatus_SPLASHING => true
  | LifeStatus_SPLASHED => false
  | LifeStatus_LAUNCHING => true
  | LifeStatus_RELAUNCHING => true
  | LifeStatus_FOREGROUND => false
  | LifeStatus_BACKGROUND => false
  | LifeStatus_PAUSING => true
  | LifeStatus_PAUSED => false
  | LifeStatus_CLOSING => true

/-- The constructor `RunningApp::RunningApp(launchPoint)`.  The three members
that its initialiser list does not mention are left to their declarations in
the header and are taken as arguments. -/
def new (launchPoint : Nat) (processId : Int) (registeredApp : Nat) (preload : String) :
    RunningApp :=
  { m_launchPoint := launchPoint
    m_instanceId := ""
    m_displayId := -1
    m_processId := processId
    m_webprocessid := ""
    m_isFullWindow := true
    m_lifeStatus := LifeStatus_STOP
    m_launchCount := 0
    m_killingTimer := 0
    m_keepAlive := false
    m_noSplash := true
    m_spinner := true
    m_isHidden := false
    m_token := 0
    m_context := 0
    m_isRegistered := false
    m_registeredApp := registeredApp
    m_preload := preload }

/-- `RunningApp::stopKillingTimer`. -/
def stopKillingTimer (self : RunningApp) (sv : Services) : RunningApp × Services :=
  if self.m_killingTimer > 0 then
    ({ self with m_killingTimer := 0 }, g_source_remove self.m_killingTimer sv)
  else
    (self, sv)

/-- `RunningApp::startKillingTimer`. -/
def startKillingTimer (self : RunningApp) (timeout : Nat) (sv : Services) :
    RunningApp × Services :=
  let stopped := self.stopKillingTimer sv
  let added := g_timeout_add timeout stopped.2
  ({ stopped.1 with m_killingTimer := added.1 }, added.2)

/-- The `switch (lifeStatus)` of `RunningApp::setLifeStatus`: bumps the launch
counter, publishes the RELAUNCHING pulse and rewrites the requested status.
Returns the object, the (possibly rewritten) local `lifeStatus` and the
services. -/
def setLifeStatusSwitch (self : RunningApp) (lifeStatus : LifeStatus) (sv : Services) :
    RunningApp × LifeStatus × Services :=
  match lifeStatus with
  | LifeStatus_STOP => (self, lifeStatus, sv)
  | LifeStatus_PRELOADING =>
      ({ self with m_launchCount := self.m_launchCount + 1 }, lifeStatus, sv)
  | LifeStatus_LAUNCHING =>
      let counted := { self with m_launchCount := self.m_launchCount + 1 }
      if counted.m_lifeStatus = LifeStatus_FOREGROUND then
        let pulsed := { counted with m_lifeStatus := LifeStatus_RELAUNCHING }
        (pulsed, LifeStatus_FOREGROUND, postGetAppLifeStatus pulsed sv)
      else if counted.m_lifeStatus = LifeStatus_BACKGROUND ∨
          counted.m_lifeStatus = LifeStatus_PAUSED ∨
          counted.m_lifeStatus = LifeStatus_PRELOADED then
        (counted, LifeStatus_RELAUNCHING, sv)
      else
        (counted, lifeStatus, sv)
  | _ => (self, lifeStatus, sv)

/-- `RunningApp::setLifeStatus`: the returned boolean, the object afterwards
and the services afterwards. -/
def setLifeStatus (self : RunningApp) (lifeStatus : LifeStatus) (sv : Services) :
    Bool × RunningApp × Services :=
  if self.m_lifeStatus = lifeStatus then
    (true, self, sv)
  else if isTransition self.m_lifeStatus && isTransition lifeStatus
      && (lifeStatus != LifeStatus_CLOSING) then
    (false, self, sv)
  else
    let switched := self.setLifeStatusSwitch lifeStatus sv
    let written := { switched.1 with m_lifeStatus := switched.2.1 }
    let timed :=
      if isTransition written.m_lifeStatus then
        written.startKillingTimer TIMEOUT_TRANSITION switched.2.2
      else
        written.stopKillingTimer switched.2.2
    (true, timed.1,
      postGetAppLifeEvents timed.1 (postGetAppLifeStatus timed.1 timed.2))

/-- `RunningApp::onKillingTimer(context)`.  `kill` is what the life handler
selected by `AbsLifeHandler::getLifeHandler` does to the object and the
services.  The boolean is the GLib answer: `false` is `G_SOURCE_REMOVE`,
`true` is `G_SOURCE_CONTINUE`. -/
def onKillingTimer (kill : RunningApp → Services → RunningApp × Services)
    (context : Option RunningApp) (sv : Services) : Bool × Option RunningApp × Services :=
  match context with
  | none => (false, none, sv)
  | some runningApp =>
      let killed := kill runningApp { sv with trace := sv.trace ++ [Event.kill runningApp] }
      (true, some killed.1, killed.2)

/-- `RunningApp::generateInstanceId(displayId)`; `uid` is the string returned
by `Time::generateUid()`. -/
def generateInstanceId (uid : String) (displayId : Int) : String :=
  uid ++ toString displayId

/-- `RunningApp::getDisplayId(instanceId)`.  `back()` of an empty string is
undefined behaviour, modelled as `none`.  The last character enters by its
code; for a character outside ASCII every byte of its encoding is at least
128, so the byte reading of the source gives the same answer 0. -/
def getDisplayId (instanceId : String) : Option Int :=
  match instanceId.data.getLast? with
  | none => none
  | some back =>
      let displayId : Int := (back.toNat : Int) - ('0'.toNat : Int)
      if displayId < 0 ∨ displayId > 10 then some 0 else some displayId

/-- `LunaTaskList::removeAfterReply(lunaTask [, errorCode, errorText])`. -/
def removeAfterReply (lunaTask : LunaTask) (error : Option (ErrCode × String))
    (sv : Services) : Services :=
  { sv with trace := sv.trace ++ [Event.removeAfterReply lunaTask error] }

/-- `lunaTask->toJson(lunaTask->getResponsePayload(), false, true)`. -/
def taskToJson (lunaTask : LunaTask) (sv : Services) : Services :=
  { sv with trace := sv.trace ++ [Event.toJson lunaTask] }

/-- `RunningApp::isRegistered()`, the accessor of `m_isRegistered`. -/
def isRegistered (self : RunningApp) : Bool :=
  self.m_isRegistered

/-- `RunningApp::sendEvent(responsePayload)`: the returned boolean, the
payload after the call (it is passed by reference) and the services. -/
def sendEvent (self : RunningApp) (responsePayload : JValue) (sv : Services) :
    Bool × JValue × Services :=
  if !self.m_isRegistered then
    (false, responsePayload, sv)
  else
    let stamped := responsePayload.put "returnValue" (JValue.bool true)
    (true, stamped,
      { sv with trace := sv.trace ++ [Event.respond self.m_registeredApp stamped] })

/-- `RunningApp::getRelaunchParams(lunaTask)`. -/
def getRelaunchParams (lunaTask : LunaTask) : JValue :=
  ((((((JValue.object []).put "returnValue" (JValue.bool true)).put
    "event" (JValue.string "relaunch")).put
    "message" (JValue.string "relaunch")).put
    "parameters" lunaTask.params).put
    "reason" (JValue.string lunaTask.reason)).put
    "appId" (JValue.string lunaTask.appId)

/-- `RunningApp::relaunch(lunaTask)`.  `isAppRelaunchSupported` is the value of
`SAMConf::getInstance().isAppRelaunchSupported()`, `handlerRelaunch` what the
`relaunch` of the selected life handler does to the object and the
services. -/
def relaunch (self : RunningApp) (isAppRelaunchSupported : Bool)
    (handlerRelaunch : RunningApp → LunaTask → Services → RunningApp × Services)
    (lunaTask : LunaTask) (sv : Services) : RunningApp × Services :=
  if self.isRegistered && isAppRelaunchSupported then
    let launched := self.setLifeStatus LifeStatus_LAUNCHING sv
    let payload := getRelaunchParams lunaTask
    let sent := launched.2.1.sendEvent payload launched.2.2
    if !sent.1 then
      (launched.2.1,
        removeAfterReply lunaTask
          (some (ErrCode.ErrCode_LAUNCH, "Failed to send relaunch event")) sent.2.2)
    else
      (launched.2.1, removeAfterReply lunaTask none (taskToJson lunaTask sent.2.2))
  else
    handlerRelaunch self lunaTask
      { sv with trace := sv.trace ++ [Event.relaunch self lunaTask] }

/-- `RunningApp::close(lunaTask)`.  `handlerTerm` is what the `term` of the
selected life handler does to the object and the services. -/
def close (self : RunningApp)
    (handlerTerm : RunningApp → LunaTask → Services → RunningApp × Services)
    (lunaTask : LunaTask) (sv : Services) : RunningApp × Services :=
  let termed := handlerTerm self lunaTask
    { sv with trace := sv.trace ++ [Event.term self lunaTask] }
  if termed.1.m_lifeStatus = LifeStatus_CLOSING then
    (termed.1, removeAfterReply lunaTask none (taskToJson lunaTask termed.2))
  else
    termed

/-- `RunningApp::registerApp(lunaTask)`. -/
def registerApp (self : RunningApp) (lunaTask : LunaTask) (sv : Services) :
    RunningApp × Services :=
  if self.m_isRegistered then
    (self,
      removeAfterReply lunaTask
        (some (ErrCode.ErrCode_GENERAL, "The app is already registered")) sv)
  else
    let bound := { self with m_registeredApp := lunaTask.request, m_isRegistered := true }
    let payload := ((JValue.object []).put "event" (JValue.string "registered")).put
      "message" (JValue.string "registered")
    let sent := bound.sendEvent payload sv
    if !sent.1 then
      ({ bound with m_isRegistered := false }, sent.2.2)
    else
      (bound, sent.2.2)

end RunningApp

/-! ## RunningAppList -/

/-- The memory the registry works in: the `RunningApp` objects and the catalog
entries by address, and the collaborators. -/
structure World where
  objs : Nat → RunningApp
  launchPoints : Nat → LaunchPoint
  sv : Services

/-- `ApplicationManager::postRunning(runningApp)`. -/
def postRunning (runningApp : Nat) (w : World) : World :=
  { w with sv := { w.sv with trace := w.sv.trace ++ [Event.postRunning runningApp (w.objs runningApp)] } }

/-- `runningApp->getLaunchPoint()->getAppDesc()->getAppType()`. -/
def World.getAppType (w : World) (runningApp : Nat) : AppType :=
  (w.launchPoints (w.objs runningApp).m_launchPoint).appDesc.appType

/-- The registry: `m_map` in iteration order, each entry a key and the address
of the stored object. -/
structure RunningAppList where
  m_map : List (String × Nat)
  deriving DecidableEq, Repr

namespace RunningAppList

/-- `runningApp->getLaunchPointId()`, the id of the launch point the object
refers to. -/
def getLaunchPointId (w : World) (runningApp : Nat) : String :=
  (w.launchPoints (w.objs runningApp).m_launchPoint).launchPointId

/-- `runningApp->getAppId()`, the app id of the launch point the object refers
to. -/
def getAppId (w : World) (runningApp : Nat) : String :=
  (w.launchPoints (w.objs runningApp).m_launchPoint).appDesc.appId

/-- `m_map.find(key)`: the entry stored under the key, if any. -/
def mapFind (key : String) (m : List (String × Nat)) : Option (String × Nat) :=
  m.find? (fun it => it.1 == key)

/-- `m_map[key] = value`: overwrites the value of a key that is present,
otherwise inserts a new entry.  The place a new key takes in the iteration
order is fixed by the container declared in `RunningAppList.h` (the key order
for a `std::map`, the end for an insertion-ordered map); it is the argument
`slot`. -/
def mapAssign (slot : Nat) (key : String) (value : Nat) (m : List (String × Nat)) :
    List (String × Nat) :=
  if m.any (fun it => it.1 == key) then
    m.map (fun it => if it.1 == key then (key, value) else it)
  else
    m.take slot ++ (key, value) :: m.drop slot

/-- `RunningAppList::getByInstanceId`. -/
def getByInstanceId (self : RunningAppList) (instanceId : String) : Option Nat :=
  if instanceId.isEmpty then none
  else
    match mapFind instanceId self.m_map with
    | none => none
    | some it => some it.2

/-- The loop of `RunningAppList::getByLaunchPointId`. -/
def getByLaunchPointIdLoop (launchPointId : String) (displayId : Int) (w : World) :
    List (String × Nat) → Option Nat
  | [] => none
  | it :: rest =>
      if getLaunchPointId w it.2 == launchPointId then
        if displayId == -1 then some it.2
        else if (w.objs it.2).m_displayId == displayId then some it.2
        else getByLaunchPointIdLoop launchPointId displayId w rest
      else getByLaunchPointIdLoop launchPointId displayId w rest

/-- `RunningAppList::getByLaunchPointId`. -/
def getByLaunchPointId (self : RunningAppList) (launchPointId : String) (displayId : Int)
    (w : World) : Option Nat :=
  getByLaunchPointIdLoop launchPointId displayId w self.m_map

/-- The loop of `RunningAppList::getByAppId`. -/
def getByAppIdLoop (appId : String) (displayId : Int) (w : World) :
    List (String × Nat) → Option Nat
  | [] => none
  | it :: rest =>
      if getAppId w it.2 == appId then
        if displayId == -1 then some it.2
        else if (w.objs it.2).m_displayId == displayId then some it.2
        else getByAppIdLoop appId displayId w rest
      else getByAppIdLoop appId displayId w rest

/-- `RunningAppList::getByAppId`. -/
def getByAppId (self : RunningAppList) (appId : String) (displayId : Int) (w : World) :
    Option Nat :=
  getByAppIdLoop appId displayId w self.m_map

/-- `RunningAppList::getByIds`. -/
def getByIds (self : RunningAppList) (instanceId launchPointId appId : String)
    (displayId : Int) (w : World) : Option Nat :=
  let found : Option Nat :=
    if !instanceId.isEmpty then self.getByInstanceId instanceId
    else if !launchPointId.isEmpty then self.getByLaunchPointId launchPointId displayId w
    else if !appId.isEmpty then self.getByAppId appId displayId w
    else none
  match found with
  | none => none
  | some runningApp =>
      if !instanceId.isEmpty && instanceId != (w.objs runningApp).m_instanceId then none
      else if !launchPointId.isEmpty && launchPointId != getLaunchPointId w runningApp then none
      else if !appId.isEmpty && appId != getAppId w runningApp then none
      else if displayId != -1 && displayId != (w.objs runningApp).m_displayId then none
      else some runningApp

/-- `RunningAppList::onAdd`. -/
def onAdd (runningApp : Nat) (w : World) : World :=
  postRunning runningApp
    { w with sv := { w.sv with trace := w.sv.trace ++ [Event.onAdd runningApp] } }

/-- `RunningAppList::add`; `slot` is the place the container gives a new key
(see `mapAssign`). -/
def add (self : RunningAppList) (runningApp : Option Nat) (slot : Nat) (w : World) :
    Bool × RunningAppList × World :=
  match runningApp with
  | none => (false, self, w)
  | some ptr =>
      if (w.objs ptr).m_instanceId.isEmpty then (false, self, w)
      else if (mapFind (w.objs ptr).m_instanceId self.m_map).isSome then (false, self, w)
      else
        (true, { m_map := mapAssign slot (w.objs ptr).m_instanceId ptr self.m_map },
          onAdd ptr w)

/-- Modelled from the spec: `LaunchPointList::getByLaunchPointId` belongs to the
catalog, outside the source slice; the catalog provides the launch points
keyed by launch-point id.  `catalog` lists the addresses of its entries. -/
def catalogGetByLaunchPointId (catalog : List Nat) (w : World) (launchPointId : String) :
    Option Nat :=
  catalog.find? (fun launchPoint => (w.launchPoints launchPoint).launchPointId == launchPointId)

/-- `RunningAppList::createByLaunchPointId`.  `make_shared` places the new
object at the address `fresh` and never returns null, so the second null test
of the source cannot fire; `processId` is the value the header gives the
member `m_processId`, which the constructor does not initialise.  The held
request and the preload string are default-constructed. -/
def createByLaunchPointId (self : RunningAppList) (launchPointId : String)
    (catalog : List Nat) (fresh : Nat) (processId : Int) (w : World) :
    Option Nat × RunningAppList × World :=
  match catalogGetByLaunchPointId catalog w launchPointId with
  | none => (none, self, w)
  | some launchPoint =>
      (some fresh, self,
        { w with objs := Function.update w.objs fresh (RunningApp.new launchPoint processId 0 "") })

/-- `RunningAppList::createByAppId`. -/
def createByAppId (self : RunningAppList) (appId : String)
    (catalog : List Nat) (fresh : Nat) (processId : Int) (w : World) :
    Option Nat × RunningAppList × World :=
  self.createByLaunchPointId (appId ++ "_default") catalog fresh processId w

/-- `RunningAppList::createByLunaTask`: the returned pointer, the task after
the call, the registry and the world.  `loadRequestPayload` is
`RunningApp::loadRequestPayload`, which is defined outside the source
slice. -/
def createByLunaTask (self : RunningAppList) (lunaTask : Option LunaTask)
    (loadRequestPayload : JValue → RunningApp → RunningApp)
    (catalog : List Nat) (fresh : Nat) (processId : Int) (w : World) :
    Option Nat × Option LunaTask × RunningAppList × World :=
  match lunaTask with
  | none => (none, none, self, w)
  | some task =>
      let created : Option Nat × RunningAppList × World :=
        if !task.launchPointId.isEmpty then
          self.createByLaunchPointId task.launchPointId catalog fresh processId w
        else if !task.appId.isEmpty then
          self.createByAppId task.appId catalog fresh processId w
        else (none, self, w)
      match created.1 with
      | none => (none, some task, created.2.1, created.2.2)
      | some runningApp =>
          let w1 := created.2.2
          let loaded := loadRequestPayload task.requestPayload (w1.objs runningApp)
          let named := { loaded with m_instanceId := task.instanceId }
          let placed := { named with m_displayId := task.displayId }
          let w2 := { w1 with objs := Function.update w1.objs runningApp placed }
          (some runningApp,
            some { task with launchPointId := getLaunchPointId w2 runningApp,
                             appId := getAppId w2 runningApp },
            created.2.1, w2)

/-- `RunningAppList::onRemove`. -/
def onRemove (runningApp : Nat) (w : World) : World :=
  let entered := { w with sv := { w.sv with trace := w.sv.trace ++ [Event.onRemove runningApp] } }
  let stopped := (entered.objs runningApp).setLifeStatus LifeStatus_STOP entered.sv
  postRunning runningApp
    { entered with objs := Function.update entered.objs runningApp stopped.2.1, sv := stopped.2.2 }

/-- The loop shared by `removeByObject`, `removeByInstanceId` and
`removeByPid`: walks `m_map` from `begin()`, erases the first entry whose
object passes `test` and hands back its address with the remaining map. -/
def eraseFirst (test : Nat → Bool) : List (String × Nat) → Option (Nat × List (String × Nat))
  | [] => none
  | it :: rest =>
      if test it.2 then some (it.2, rest)
      else
        match eraseFirst test rest with
        | some found => some (found.1, it :: found.2)
        | none => none

/-- `RunningAppList::removeByObject`. -/
def removeByObject (self : RunningAppList) (runningApp : Option Nat) (w : World) :
    Bool × RunningAppList × World :=
  match runningApp with
  | none => (false, self, w)
  | some ptr =>
      match eraseFirst (fun second => second == ptr) self.m_map with
      | some found => (true, { m_map := found.2 }, onRemove found.1 w)
      | none => (false, self, w)

/-- `RunningAppList::removeByInstanceId`. -/
def removeByInstanceId (self : RunningAppList) (instanceId : String) (w : World) :
    Bool × RunningAppList × World :=
  match eraseFirst (fun second => (w.objs second).m_instanceId == instanceId) self.m_map with
  | some found => (true, { m_map := found.2 }, onRemove found.1 w)
  | none => (false, self, w)

/-- `RunningAppList::removeByPid`. -/
def removeByPid (self : RunningAppList) (pid : Int) (w : World) :
    Bool × RunningAppList × World :=
  match eraseFirst (fun second => (w.objs second).m_processId == pid) self.m_map with
  | some found => (true, { m_map := found.2 }, onRemove found.1 w)
  | none => (false, self, w)

/-- The loop shared by `removeAllByType`, `removeAllByConext` and
`removeAllByLaunchPoint`: at each entry the test reads the memory as it is at
that moment; a matching entry is erased and handed to `onRemove`. -/
def eraseAll (test : World → Nat → Bool) :
    List (String × Nat) → World → List (String × Nat) × World
  | [], w => ([], w)
  | it :: rest, w =>
      if test w it.2 then
        eraseAll test rest (onRemove it.2 w)
      else
        let walked := eraseAll test rest w
        (it :: walked.1, walked.2)

/-- `RunningAppList::removeAllByType`. -/
def removeAllByType (self : RunningAppList) (type : AppType) (w : World) :
    Bool × RunningAppList × World :=
  let walked := eraseAll (fun w0 second => w0.getAppType second == type) self.m_map w
  (true, { m_map := walked.1 }, walked.2)

/-- `RunningAppList::removeAllByConext`. -/
def removeAllByConext (self : RunningAppList) (type : AppType) (context : Int) (w : World) :
    Bool × RunningAppList × World :=
  let walked := eraseAll
    (fun w0 second => w0.getAppType second == type && (w0.objs second).m_context == context)
    self.m_map w
  (true, { m_map := walked.1 }, walked.2)

/-- `RunningAppList::removeAllByLaunchPoint`; a null `launchPoint` is `none`. -/
def removeAllByLaunchPoint (self : RunningAppList) (launchPoint : Option Nat) (w : World) :
    Bool × RunningAppList × World :=
  let walked := eraseAll
    (fun w0 second => some (w0.objs second).m_launchPoint == launchPoint) self.m_map w
  (true, { m_map := walked.1 }, walked.2)

end RunningAppList

/-! ## Specification vocabulary -/

/-- The events appended to the trace between two states of the services. -/
def emitted (before after : Services) : List Event :=
  after.trace.drop before.trace.length

/-- The addresses handed to `onRemove`, in call order. -/
def onRemoveCalls : List Event → List Nat
  | [] => []
  | Event.onRemove p :: rest => p :: onRemoveCalls rest
  | _ :: rest => onRemoveCalls rest

/-- A life handler whose `kill` acts on the object through a sequence of
`setLifeStatus` requests. -/
def scriptedKill (calls : List LifeStatus) (app : RunningApp) (sv : Services) :
    RunningApp × Services :=
  calls.foldl (fun st lifeStatus => (st.1.setLifeStatus lifeStatus st.2).2) (app, sv)

/-- The states a `RunningApp` and the services can be in: the constructor
state, then any sequence of `setLifeStatus` calls, firings of the killing
timer (armed, with any scripted handler) and operations that write neither
`m_lifeStatus` nor `m_killingTimer` (the other setters, registration, work of
other objects on the services). -/
inductive Reachable : RunningApp → Services → Prop
  | ctor (launchPoint : Nat) (processId : Int) (registeredApp : Nat) (preload : String)
      (sv : Services) :
      Reachable (RunningApp.new launchPoint processId registeredApp preload) sv
  | setLifeStatus (app : RunningApp) (sv : Services) (lifeStatus : LifeStatus) :
      Reachable app sv →
      Reachable (app.setLifeStatus lifeStatus sv).2.1 (app.setLifeStatus lifeStatus sv).2.2
  | onKillingTimer (app : RunningApp) (sv : Services) (calls : List LifeStatus)
      (answer : Bool) (app2 : RunningApp) (sv2 : Services) :
      Reachable app sv → app.m_killingTimer ≠ 0 →
      RunningApp.onKillingTimer (scriptedKill calls) (some app) sv = (answer, some app2, sv2) →
      Reachable app2 sv2
  | other (app : RunningApp) (sv : Services) (app2 : RunningApp) (sv2 : Services) :
      Reachable app sv → app2.m_lifeStatus = app.m_lifeStatus →
      app2.m_killingTimer = app.m_killingTimer → Reachable app2 sv2

/-- The timer invariant: the killing timer is armed exactly in a transition
state. -/
def TimerInv (app : RunningApp) : Prop :=
  app.m_killingTimer ≠ 0 ↔ RunningApp.isTransition app.m_lifeStatus = true

/-- The snapshots carried by the status-changed events
(`postGetAppLifeStatus`) of a trace, in order. -/
def statusChanged : List Event → List RunningApp
  | [] => []
  | Event.postGetAppLifeStatus app :: rest => app :: statusChanged rest
  | _ :: rest => statusChanged rest

/-- An object at rest after removal: life status STOP and the killing timer
cancelled. -/
def Stopped (app : RunningApp) : Prop :=
  app.m_lifeStatus = LifeStatus_STOP ∧ app.m_killingTimer = 0

/-- The relation between the world before and after some calls of `onRemove`:
the catalog and the members read by the removal tests are the same, a stopped
object stays stopped and the timer invariant is kept. -/
def Settled (w w1 : World) : Prop :=
  w1.launchPoints = w.launchPoints ∧
  ∀ q, (w1.objs q).m_launchPoint = (w.objs q).m_launchPoint ∧
    (w1.objs q).m_context = (w.objs q).m_context ∧
    (w1.objs q).m_instanceId = (w.objs q).m_instanceId ∧
    (w1.objs q).m_processId = (w.objs q).m_processId ∧
    (Stopped (w.objs q) → Stopped (w1.objs q)) ∧
    (TimerInv (w.objs q) → TimerInv (w1.objs q))

/-- What a removal path must achieve for the addresses `removed` (one per
erased entry, in map order) when it takes the world `w` to `w1`: the calls of
`onRemove` made on the way are exactly these addresses, and every erased
object ends stopped and saw exactly one `onRemove`. -/
def RemovalDone (w w1 : World) (removed : List Nat) : Prop :=
  onRemoveCalls (emitted w.sv w1.sv) = removed ∧
  ∀ p ∈ removed, Stopped (w1.objs p) ∧ (onRemoveCalls (emitted w.sv w1.sv)).count p = 1

/-- The events pushed over a registration channel (`respond` on a held
request handle) in a trace, in order: the handle and the payload. -/
def respondCalls : List Event → List (Nat × JValue)
  | [] => []
  | Event.respond registeredApp payload :: rest => (registeredApp, payload) :: respondCalls rest
  | _ :: rest => respondCalls rest

/-- The calls of the life handler's `relaunch` in a trace, in order. -/
def handlerRelaunchCalls : List Event → List (RunningApp × LunaTask)
  | [] => []
  | Event.relaunch app lunaTask :: rest => (app, lunaTask) :: handlerRelaunchCalls rest
  | _ :: rest => handlerRelaunchCalls rest

/-- The tasks completed through `LunaTaskList::removeAfterReply` in a trace, in
order, each with its error (`none` for success). -/
def completedTasks : List Event → List (LunaTask × Option (ErrCode × String))
  | [] => []
  | Event.removeAfterReply lunaTask error :: rest => (lunaTask, error) :: completedTasks rest
  | _ :: rest => completedTasks rest

/-- The addresses handed to `onAdd`, in call order. -/
def onAddCalls : List Event → List Nat
  | [] => []
  | Event.onAdd p :: rest => p :: onAddCalls rest
  | _ :: rest => onAddCalls rest

/-- A life handler call that does nothing to the object and the services. -/
def inertHandler (app : RunningApp) (_lunaTask : LunaTask) (sv : Services) :
    RunningApp × Services :=
  (app, sv)

/-- The registry invariant of the data model: every entry is stored under the
non-empty instance id of its object. -/
def KeyedByInstanceId (self : RunningAppList) (w : World) : Prop :=
  ∀ e ∈ self.m_map, e.1 ≠ "" ∧ (w.objs e.2).m_instanceId = e.1

/-- The relation between two worlds in which the catalog and the members of
the objects that identify them (launch point, instance id, display id,
process id, context) are the same. -/
def SameIdentity (w w1 : World) : Prop :=
  w1.launchPoints = w.launchPoints ∧
  ∀ q, (w1.objs q).m_launchPoint = (w.objs q).m_launchPoint ∧
    (w1.objs q).m_context = (w.objs q).m_context ∧
    (w1.objs q).m_instanceId = (w.objs q).m_instanceId ∧
    (w1.objs q).m_processId = (w.objs q).m_processId ∧
    (w1.objs q).m_displayId = (w.objs q).m_displayId

/-- The registries the program can be in: the empty registry of the
constructor, then any sequence of `add`, of the six removal operations and of
work elsewhere that leaves the instance ids of the stored objects alone. -/
inductive ReachableRegistry : RunningAppList → World → Prop
  | ctor (w : World) : ReachableRegistry { m_map := [] } w
  | add (self : RunningAppList) (w : World) (runningApp : Option Nat) (slot : Nat) :
      ReachableRegistry self w →
      ReachableRegistry (self.add runningApp slot w).2.1 (self.add runningApp slot w).2.2
  | removeByObject (self : RunningAppList) (w : World) (runningApp : Option Nat) :
      ReachableRegistry self w →
      ReachableRegistry (self.removeByObject runningApp w).2.1
        (self.removeByObject runningApp w).2.2
  | removeByInstanceId (self : RunningAppList) (w : World) (instanceId : String) :
      ReachableRegistry self w →
      ReachableRegistry (self.removeByInstanceId instanceId w).2.1
        (self.removeByInstanceId instanceId w).2.2
  | removeByPid (self : RunningAppList) (w : World) (pid : Int) :
      ReachableRegistry self w →
      ReachableRegistry (self.removeByPid pid w).2.1 (self.removeByPid pid w).2.2
  | removeAllByType (self : RunningAppList) (w : World) (type : AppType) :
      ReachableRegistry self w →
      ReachableRegistry (self.removeAllByType type w).2.1 (self.removeAllByType type w).2.2
  | removeAllByConext (self : RunningAppList) (w : World) (type : AppType) (context : Int) :
      ReachableRegistry self w →
      ReachableRegistry (self.removeAllByConext type context w).2.1
        (self.removeAllByConext type context w).2.2
  | removeAllByLaunchPoint (self : RunningAppList) (w : World) (launchPoint : Option Nat) :
      ReachableRegistry self w →
      ReachableRegistry (self.removeAllByLaunchPoint launchPoint w).2.1
        (self.removeAllByLaunchPoint launchPoint w).2.2
  | other (self : RunningAppList) (w w1 : World) :
      ReachableRegistry self w →
      (∀ e ∈ self.m_map, (w1.objs e.2).m_instanceId = (w.objs e.2).m_instanceId) →
      ReachableRegistry self w1

/-- The calls of the life handler's `kill` in a trace, in order: the object
each call was made on. -/
def killCalls : List Event → List RunningApp
  | [] => []
  | Event.kill app :: rest => app :: killCalls rest
  | _ :: rest => killCalls rest

/-- The GLib main loop running the killing timer of one object through `n`
deadlines: each deadline calls `onKillingTimer` on the object; the source
stays attached, so that the next deadline comes, only while the callback
answers `G_SOURCE_CONTINUE`.  Returns the answers in order, the object and
the services. -/
def fireKillingTimer (kill : RunningApp → Services → RunningApp × Services) :
    Nat → RunningApp → Services → List Bool × RunningApp × Services
  | 0, app, sv => ([], app, sv)
  | n + 1, app, sv =>
      match RunningApp.onKillingTimer kill (some app) sv with
      | (true, some app1, sv1) =>
          let later := fireKillingTimer kill n app1 sv1
          (true :: later.1, later.2.1, later.2.2)
      | (answer, _, sv1) => ([answer], app, sv1)

/-- A registered object agrees with a `getByIds` query: each id that is not
empty is the object's, and so is the display id unless it is -1. -/
def AgreesWith (w : World) (runningApp : Nat) (instanceId launchPointId appId : String)
    (displayId : Int) : Prop :=
  (instanceId ≠ "" → (w.objs runningApp).m_instanceId = instanceId) ∧
  (launchPointId ≠ "" → RunningAppList.getLaunchPointId w runningApp = launchPointId) ∧
  (appId ≠ "" → RunningAppList.getAppId w runningApp = appId) ∧
  (displayId ≠ -1 → (w.objs runningApp).m_displayId = displayId)

/-! ## A concrete registry -/

/-- A world with three live objects: at address 1 a native app in LAUNCHING
(timer 7), at address 2 a web app in CLOSING (timer 9), at address 3 a native
app in FOREGROUND (no timer). -/
def exampleWorld : World :=
  { objs := fun p =>
      if p = 1 then
        { RunningApp.new 10 101 0 "" with
            m_instanceId := "a0", m_lifeStatus := LifeStatus_LAUNCHING, m_killingTimer := 7,
            m_launchCount := 1, m_context := 1 }
      else if p = 2 then
        { RunningApp.new 20 102 0 "" with
            m_instanceId := "b0", m_lifeStatus := LifeStatus_CLOSING, m_killingTimer := 9,
            m_launchCount := 1, m_context := 1 }
      else
        { RunningApp.new 10 103 0 "" with
            m_instanceId := "c0", m_lifeStatus := LifeStatus_FOREGROUND, m_launchCount := 1,
            m_context := 2 }
    launchPoints := fun p =>
      if p = 10 then
        { launchPointId := "n_default", appDesc := { appId := "n", appType := AppType.AppType_Native } }
      else
        { launchPointId := "w_default", appDesc := { appId := "w", appType := AppType.AppType_Web } }
    sv := { trace := [], lastSourceId := 9, sources := [⟨7, 15000⟩, ⟨9, 15000⟩] } }

/-- The registry holding the three objects of `exampleWorld` under their
instance ids. -/
def exampleRegistry : RunningAppList :=
  { m_map := [("a0", 1), ("b0", 2), ("c0", 3)] }

/-- The world `exampleWorld` with a fourth object, not yet registered: at
address 4 a freshly created web app with instance id "d0". -/
def exampleWorldFour : World :=
  { exampleWorld with
    objs := Function.update exampleWorld.objs 4
      ({ RunningApp.new 20 104 0 "" with m_instanceId := "d0" }) }

/-! ## Theorems -/

open RunningApp

theorem stopKillingTimer_fst (self : RunningApp) (sv : Services) :
    (self.stopKillingTimer sv).1 = { self with m_killingTimer := 0 } := by
  unfold stopKillingTimer
  split_ifs with h
  · rfl
  · have h0 : self.m_killingTimer = 0 := by omega
    cases self
    simp_all

theorem stopKillingTimer_trace (self : RunningApp) (sv : Services) :
    (self.stopKillingTimer sv).2.trace = sv.trace := by
  unfold stopKillingTimer g_source_remove
  split_ifs <;> rfl

theorem stopKillingTimer_lastSourceId (self : RunningApp) (sv : Services) :
    (self.stopKillingTimer sv).2.lastSourceId = sv.lastSourceId := by
  unfold stopKillingTimer g_source_remove
  split_ifs <;> rfl

theorem startKillingTimer_fst (self : RunningApp) (timeout : Nat) (sv : Services) :
    (self.startKillingTimer timeout sv).1 =
      { self with m_killingTimer := sv.lastSourceId + 1 } := by
  simp [startKillingTimer, g_timeout_add, stopKillingTimer_fst, stopKillingTimer_lastSourceId]

theorem startKillingTimer_trace (self : RunningApp) (timeout : Nat) (sv : Services) :
    (self.startKillingTimer timeout sv).2.trace = sv.trace := by
  simp [startKillingTimer, g_timeout_add, stopKillingTimer_trace]

theorem emitted_of_trace (before after : Services) (tr : List Event)
    (h : after.trace = before.trace ++ tr) : emitted before after = tr := by
  simp [emitted, h]

theorem timerInv_setLifeStatus (self : RunningApp) (b : LifeStatus) (sv : Services)
    (h : TimerInv self) : TimerInv (self.setLifeStatus b sv).2.1 := by
  unfold TimerInv at h ⊢
  cases hs : self.m_lifeStatus <;> cases b <;>
    simp_all [setLifeStatus, setLifeStatusSwitch, isTransition, startKillingTimer_fst,
      stopKillingTimer_fst]

theorem timerInv_scriptedKill (calls : List LifeStatus) (app : RunningApp) (sv : Services)
    (h : TimerInv app) : TimerInv (scriptedKill calls app sv).1 := by
  unfold scriptedKill
  induction calls generalizing app sv with
  | nil => simpa using h
  | cons c rest ih =>
      simp only [List.foldl_cons]
      exact ih _ _ (timerInv_setLifeStatus app c sv h)

theorem timerInv_of_reachable {app : RunningApp} {sv : Services} (h : Reachable app sv) :
    TimerInv app := by
  induction h with
  | ctor launchPoint processId registeredApp preload sv =>
      simp [TimerInv, RunningApp.new, isTransition]
  | setLifeStatus app sv lifeStatus _ ih => exact timerInv_setLifeStatus app lifeStatus sv ih
  | onKillingTimer app sv calls answer app2 sv2 _ _ hrun ih =>
      simp only [onKillingTimer, Prod.mk.injEq, Option.some.injEq] at hrun
      rw [← hrun.2.1]
      exact timerInv_scriptedKill calls app _ ih
  | other app sv app2 sv2 _ hs ht ih =>
      unfold TimerInv at ih ⊢
      rw [hs, ht]
      exact ih

theorem setLifeStatus_selfRelaunch_aux (self : RunningApp) (sv : Services)
    (h : self.m_lifeStatus = LifeStatus_FOREGROUND) :
    (self.setLifeStatus LifeStatus_LAUNCHING sv).1 = true ∧
    emitted sv (self.setLifeStatus LifeStatus_LAUNCHING sv).2.2 =
      [Event.postGetAppLifeStatus
          { self with m_launchCount := self.m_launchCount + 1,
                      m_lifeStatus := LifeStatus_RELAUNCHING },
        Event.postGetAppLifeStatus (self.setLifeStatus LifeStatus_LAUNCHING sv).2.1,
        Event.postGetAppLifeEvents (self.setLifeStatus LifeStatus_LAUNCHING sv).2.1] ∧
    (self.setLifeStatus LifeStatus_LAUNCHING sv).2.1.m_lifeStatus = LifeStatus_FOREGROUND := by
  refine ⟨?_, ?_, ?_⟩
  · simp [setLifeStatus, h, isTransition]
  · apply emitted_of_trace
    simp [setLifeStatus, setLifeStatusSwitch, h, isTransition, stopKillingTimer_fst,
      stopKillingTimer_trace, postGetAppLifeStatus, postGetAppLifeEvents]
  · simp [setLifeStatus, setLifeStatusSwitch, h, isTransition, stopKillingTimer_fst]

theorem onRemoveCalls_append (xs ys : List Event) :
    onRemoveCalls (xs ++ ys) = onRemoveCalls xs ++ onRemoveCalls ys := by
  induction xs with
  | nil => rfl
  | cons e rest ih => cases e <;> simp [onRemoveCalls, ih]

theorem setLifeStatus_stop_spec (app : RunningApp) (sv : Services) (h : TimerInv app) :
    Stopped (app.setLifeStatus LifeStatus_STOP sv).2.1 ∧
    (app.setLifeStatus LifeStatus_STOP sv).2.1.m_launchPoint = app.m_launchPoint ∧
    (app.setLifeStatus LifeStatus_STOP sv).2.1.m_context = app.m_context ∧
    (app.setLifeStatus LifeStatus_STOP sv).2.1.m_instanceId = app.m_instanceId ∧
    (app.setLifeStatus LifeStatus_STOP sv).2.1.m_processId = app.m_processId ∧
    ∃ tr, (app.setLifeStatus LifeStatus_STOP sv).2.2.trace = sv.trace ++ tr ∧
      onRemoveCalls tr = [] := by
  unfold TimerInv at h
  unfold Stopped
  by_cases hs : app.m_lifeStatus = LifeStatus_STOP
  · refine ⟨?_, ?_, ?_, ?_, ?_, [], ?_, rfl⟩ <;>
      simp_all [setLifeStatus, isTransition]
  · refine ⟨?_, ?_, ?_, ?_, ?_,
      [Event.postGetAppLifeStatus (app.setLifeStatus LifeStatus_STOP sv).2.1,
       Event.postGetAppLifeEvents (app.setLifeStatus LifeStatus_STOP sv).2.1], ?_, rfl⟩ <;>
      simp [setLifeStatus, setLifeStatusSwitch, hs, isTransition, stopKillingTimer_fst,
        stopKillingTimer_trace, postGetAppLifeStatus, postGetAppLifeEvents]

theorem timerInv_of_stopped (app : RunningApp) (h : Stopped app) : TimerInv app := by
  unfold Stopped at h
  unfold TimerInv
  simp [h.1, h.2, isTransition]

theorem settled_refl (w : World) : Settled w w :=
  ⟨rfl, fun _ => ⟨rfl, rfl, rfl, rfl, id, id⟩⟩

theorem settled_trans {w w1 w2 : World} (h1 : Settled w w1) (h2 : Settled w1 w2) :
    Settled w w2 := by
  refine ⟨h2.1.trans h1.1, fun q => ?_⟩
  obtain ⟨a1, a2, a3, a4, a5, a6⟩ := h1.2 q
  obtain ⟨b1, b2, b3, b4, b5, b6⟩ := h2.2 q
  exact ⟨b1.trans a1, b2.trans a2, b3.trans a3, b4.trans a4, fun h => b5 (a5 h),
    fun h => b6 (a6 h)⟩

theorem onRemove_objs_other (p q : Nat) (w : World) (h : q ≠ p) :
    (RunningAppList.onRemove p w).objs q = w.objs q := by
  simp [RunningAppList.onRemove, postRunning, Function.update_noteq h]

theorem onRemove_objs_self (p : Nat) (w : World) :
    (RunningAppList.onRemove p w).objs p =
      ((w.objs p).setLifeStatus LifeStatus_STOP
        { w.sv with trace := w.sv.trace ++ [Event.onRemove p] }).2.1 := by
  simp [RunningAppList.onRemove, postRunning]

theorem onRemove_stopped (p : Nat) (w : World) (h : TimerInv (w.objs p)) :
    Stopped ((RunningAppList.onRemove p w).objs p) := by
  rw [onRemove_objs_self]
  exact (setLifeStatus_stop_spec _ _ h).1

theorem onRemove_trace (p : Nat) (w : World) (h : TimerInv (w.objs p)) :
    ∃ tr, (RunningAppList.onRemove p w).sv.trace = w.sv.trace ++ tr ∧
      onRemoveCalls tr = [p] := by
  obtain ⟨tr, htr, hcalls⟩ := (setLifeStatus_stop_spec (w.objs p)
    { w.sv with trace := w.sv.trace ++ [Event.onRemove p] } h).2.2.2.2.2
  refine ⟨[Event.onRemove p] ++ tr ++
    [Event.postRunning p ((RunningAppList.onRemove p w).objs p)], ?_, ?_⟩
  · simp [RunningAppList.onRemove, postRunning, htr]
  · simp [onRemoveCalls_append, hcalls, onRemoveCalls]

theorem onRemove_settled (p : Nat) (w : World) (h : TimerInv (w.objs p)) :
    Settled w (RunningAppList.onRemove p w) := by
  refine ⟨by simp [RunningAppList.onRemove, postRunning], fun q => ?_⟩
  by_cases hq : q = p
  · subst hq
    have hspec := setLifeStatus_stop_spec (w.objs q)
      { w.sv with trace := w.sv.trace ++ [Event.onRemove q] } h
    rw [onRemove_objs_self]
    exact ⟨hspec.2.1, hspec.2.2.1, hspec.2.2.2.1, hspec.2.2.2.2.1, fun _ => hspec.1,
      fun _ => timerInv_of_stopped _ hspec.1⟩
  · rw [onRemove_objs_other p q w hq]
    exact ⟨rfl, rfl, rfl, rfl, id, id⟩

theorem eraseAll_spec (test : World → Nat → Bool)
    (hstable : ∀ w w1, Settled w w1 → ∀ q, test w1 q = test w q)
    (m : List (String × Nat)) (w : World) (hinv : ∀ e ∈ m, TimerInv (w.objs e.2)) :
    (RunningAppList.eraseAll test m w).1 = m.filter (fun e => !test w e.2) ∧
    Settled w (RunningAppList.eraseAll test m w).2 ∧
    (∃ tr, (RunningAppList.eraseAll test m w).2.sv.trace = w.sv.trace ++ tr ∧
      onRemoveCalls tr = (m.filter (fun e => test w e.2)).map Prod.snd) ∧
    (∀ p ∈ (m.filter (fun e => test w e.2)).map Prod.snd,
      Stopped ((RunningAppList.eraseAll test m w).2.objs p)) := by
  induction m generalizing w with
  | nil => exact ⟨rfl, settled_refl w, ⟨[], by simp [RunningAppList.eraseAll], rfl⟩, by simp⟩
  | cons e rest ih =>
      have he : TimerInv (w.objs e.2) := hinv e (List.mem_cons_self _ _)
      by_cases ht : test w e.2 = true
      · have hset := onRemove_settled e.2 w he
        have hrest : ∀ x ∈ rest, TimerInv ((RunningAppList.onRemove e.2 w).objs x.2) :=
          fun x hx => (hset.2 x.2).2.2.2.2.2 (hinv x (List.mem_cons_of_mem _ hx))
        obtain ⟨h1, h2, ⟨tr1, htr1, hc1⟩, h4⟩ := ih (RunningAppList.onRemove e.2 w) hrest
        obtain ⟨tr0, htr0, hc0⟩ := onRemove_trace e.2 w he
        have hfun : (fun x : String × Nat => test (RunningAppList.onRemove e.2 w) x.2) =
            (fun x : String × Nat => test w x.2) :=
          funext fun x => hstable w _ hset x.2
        have hfun2 : (fun x : String × Nat => !test (RunningAppList.onRemove e.2 w) x.2) =
            (fun x : String × Nat => !test w x.2) :=
          funext fun x => by rw [hstable w _ hset x.2]
        rw [hfun] at hc1 h4
        rw [hfun2] at h1
        simp only [RunningAppList.eraseAll, ht, if_true]
        refine ⟨?_, settled_trans hset h2, ⟨tr0 ++ tr1, ?_, ?_⟩, ?_⟩
        · rw [h1]
          simp [List.filter_cons, ht]
        · rw [htr1, htr0, List.append_assoc]
        · rw [onRemoveCalls_append, hc0, hc1]
          simp [List.filter_cons, ht]
        · intro p hp
          simp only [List.filter_cons, ht, if_true, List.map_cons, List.mem_cons] at hp
          rcases hp with hp | hp
          · subst hp
            exact (h2.2 e.2).2.2.2.2.1 (onRemove_stopped e.2 w he)
          · exact h4 p hp
      · have hrest : ∀ x ∈ rest, TimerInv (w.objs x.2) :=
          fun x hx => hinv x (List.mem_cons_of_mem _ hx)
        obtain ⟨h1, h2, ⟨tr1, htr1, hc1⟩, h4⟩ := ih w hrest
        simp only [RunningAppList.eraseAll, ht]
        refine ⟨?_, h2, ⟨tr1, htr1, ?_⟩, ?_⟩
        · simp [List.filter_cons, ht, h1]
        · rw [hc1]
          simp [List.filter_cons, ht]
        · intro p hp
          simp only [List.filter_cons, ht] at hp
          exact h4 p hp

theorem removalDone_nil (w : World) : RemovalDone w w [] := by
  simp [RemovalDone, emitted, onRemoveCalls]

theorem removalDone_of_trace (w w1 : World) (removed : List Nat) (tr : List Event)
    (htr : w1.sv.trace = w.sv.trace ++ tr) (hcalls : onRemoveCalls tr = removed)
    (hnodup : removed.Nodup) (hstop : ∀ p ∈ removed, Stopped (w1.objs p)) :
    RemovalDone w w1 removed := by
  unfold RemovalDone
  rw [emitted_of_trace _ _ _ htr, hcalls]
  exact ⟨rfl, fun p hp => ⟨hstop p hp, List.count_eq_one_of_mem hnodup hp⟩⟩

theorem eraseFirst_eq (test : Nat → Bool) (m : List (String × Nat)) :
    RunningAppList.eraseFirst test m =
      (m.find? (fun e => test e.2)).map
        (fun e => (e.2, m.eraseP (fun e => test e.2))) := by
  induction m with
  | nil => rfl
  | cons e rest ih =>
      by_cases ht : test e.2 = true
      · simp [RunningAppList.eraseFirst, ht]
      · simp only [RunningAppList.eraseFirst, ht, List.find?_cons, ih]
        cases hf : rest.find? (fun e => test e.2) <;> simp [List.eraseP_cons, ht]

theorem first_path_done (test : Nat → Bool) (m : List (String × Nat)) (w : World)
    (hinv : ∀ e ∈ m, TimerInv (w.objs e.2)) (res : Bool × RunningAppList × World)
    (hsome : ∀ found, RunningAppList.eraseFirst test m = some found →
      res = (true, { m_map := found.2 }, RunningAppList.onRemove found.1 w))
    (hnone : RunningAppList.eraseFirst test m = none → res = (false, { m_map := m }, w)) :
    res.1 = (m.find? (fun e => test e.2)).isSome ∧
    res.2.1.m_map = m.eraseP (fun e => test e.2) ∧
    RemovalDone w res.2.2 ((m.find? (fun e => test e.2)).toList.map Prod.snd) := by
  rw [eraseFirst_eq] at hsome hnone
  cases hf : m.find? (fun e => test e.2) with
  | none =>
      rw [hf] at hnone
      rw [hnone rfl]
      have hno : ∀ e ∈ m, ¬ (test e.2 = true) := by
        intro e he
        have := List.find?_eq_none.1 hf e he
        simpa using this
      refine ⟨rfl, ?_, by simpa using removalDone_nil w⟩
      exact (List.eraseP_of_forall_not hno).symm
  | some e =>
      rw [hf] at hsome
      rw [hsome _ rfl]
      have hmem : e ∈ m := List.mem_of_find?_eq_some hf
      obtain ⟨tr, htr, hcalls⟩ := onRemove_trace e.2 w (hinv e hmem)
      refine ⟨rfl, rfl, ?_⟩
      apply removalDone_of_trace w _ _ tr htr (by simpa using hcalls) (by simp)
      intro p hp
      simp only [Option.toList, List.map_cons, List.map_nil, List.mem_singleton] at hp
      subst hp
      exact onRemove_stopped e.2 w (hinv e hmem)

theorem all_path_done (test : World → Nat → Bool)
    (hstable : ∀ w w1, Settled w w1 → ∀ q, test w1 q = test w q)
    (m : List (String × Nat)) (w : World) (hinv : ∀ e ∈ m, TimerInv (w.objs e.2))
    (hdistinct : (m.map Prod.snd).Nodup) :
    (RunningAppList.eraseAll test m w).1 = m.filter (fun e => !test w e.2) ∧
    RemovalDone w (RunningAppList.eraseAll test m w).2
      ((m.filter (fun e => test w e.2)).map Prod.snd) := by
  obtain ⟨h1, _, ⟨tr, htr, hcalls⟩, hstop⟩ := eraseAll_spec test hstable m w hinv
  refine ⟨h1, removalDone_of_trace w _ _ tr htr hcalls ?_ hstop⟩
  exact List.Nodup.sublist (List.Sublist.map _ (List.filter_sublist _)) hdistinct

/-- C1: `setLifeStatus(b)` on an app in status `a` returns false exactly when
`a ≠ b`, both are transition states and `b` is not CLOSING; otherwise it
returns true. -/
theorem setLifeStatus_refuses_iff (self : RunningApp) (b : LifeStatus) (sv : Services) :
    ((self.setLifeStatus b sv).1 = false ↔
      (self.m_lifeStatus ≠ b ∧
        self.m_lifeStatus ∈ [LifeStatus_PRELOADING, LifeStatus_SPLASHING, LifeStatus_LAUNCHING,
          LifeStatus_RELAUNCHING, LifeStatus_PAUSING, LifeStatus_CLOSING] ∧
        b ∈ [LifeStatus_PRELOADING, LifeStatus_SPLASHING, LifeStatus_LAUNCHING,
          LifeStatus_RELAUNCHING, LifeStatus_PAUSING, LifeStatus_CLOSING] ∧
        b ≠ LifeStatus_CLOSING)) ∧
    ((self.setLifeStatus b sv).1 = true ↔
      ¬ (self.m_lifeStatus ≠ b ∧
        self.m_lifeStatus ∈ [LifeStatus_PRELOADING, LifeStatus_SPLASHING, LifeStatus_LAUNCHING,
          LifeStatus_RELAUNCHING, LifeStatus_PAUSING, LifeStatus_CLOSING] ∧
        b ∈ [LifeStatus_PRELOADING, LifeStatus_SPLASHING, LifeStatus_LAUNCHING,
          LifeStatus_RELAUNCHING, LifeStatus_PAUSING, LifeStatus_CLOSING] ∧
        b ≠ LifeStatus_CLOSING)) := by
  cases h : self.m_lifeStatus <;> cases b <;>
    simp [setLifeStatus, isTransition, h]

/-- C2: a refused `setLifeStatus` leaves the object (hence `m_lifeStatus`,
`m_launchCount`, `m_killingTimer`) and the services (hence the event trace and
the GLib sources) exactly as they were. -/
theorem setLifeStatus_refused_unchanged (self : RunningApp) (b : LifeStatus) (sv : Services)
    (h : (self.setLifeStatus b sv).1 = false) :
    (self.setLifeStatus b sv).2 = (self, sv) ∧
    (self.setLifeStatus b sv).2.1.m_lifeStatus = self.m_lifeStatus ∧
    (self.setLifeStatus b sv).2.1.m_launchCount = self.m_launchCount ∧
    (self.setLifeStatus b sv).2.1.m_killingTimer = self.m_killingTimer ∧
    emitted sv (self.setLifeStatus b sv).2.2 = [] := by
  unfold setLifeStatus at h ⊢
  split_ifs at h ⊢
  all_goals simp_all [emitted]

/-- C2 at the spec's scenario: an app in LAUNCHING asked for PAUSING is
refused and stays in LAUNCHING. -/
theorem setLifeStatus_refused_unchanged_witness :
    ({ RunningApp.new 0 0 0 "" with
        m_lifeStatus := LifeStatus_LAUNCHING, m_killingTimer := 1 }.setLifeStatus
        LifeStatus_PAUSING ⟨[], 1, [⟨1, 15000⟩]⟩).1 = false ∧
    ({ RunningApp.new 0 0 0 "" with
        m_lifeStatus := LifeStatus_LAUNCHING, m_killingTimer := 1 }.setLifeStatus
        LifeStatus_PAUSING ⟨[], 1, [⟨1, 15000⟩]⟩).2.1.m_lifeStatus = LifeStatus_LAUNCHING :=
  ⟨by decide,
   (setLifeStatus_refused_unchanged _ LifeStatus_PAUSING ⟨[], 1, [⟨1, 15000⟩]⟩ (by decide)).2.1⟩

/-- C3: CLOSING may always be entered: in every reachable state
`setLifeStatus(CLOSING)` returns true and leaves the app in CLOSING with the
killing timer armed. -/
theorem setLifeStatus_closing_always (app : RunningApp) (sv : Services)
    (h : Reachable app sv) :
    (app.setLifeStatus LifeStatus_CLOSING sv).1 = true ∧
    (app.setLifeStatus LifeStatus_CLOSING sv).2.1.m_lifeStatus = LifeStatus_CLOSING ∧
    (app.setLifeStatus LifeStatus_CLOSING sv).2.1.m_killingTimer ≠ 0 := by
  have hinv := timerInv_of_reachable h
  unfold TimerInv at hinv
  cases hs : app.m_lifeStatus <;>
    simp_all [setLifeStatus, setLifeStatusSwitch, isTransition, startKillingTimer_fst,
      stopKillingTimer_fst]

/-- C3 at the spec's scenario: an app that went from the constructor state to
LAUNCHING accepts CLOSING. -/
theorem setLifeStatus_closing_always_witness :
    Reachable
      ((RunningApp.new 0 0 0 "").setLifeStatus LifeStatus_LAUNCHING ⟨[], 0, []⟩).2.1
      ((RunningApp.new 0 0 0 "").setLifeStatus LifeStatus_LAUNCHING ⟨[], 0, []⟩).2.2 ∧
    ((((RunningApp.new 0 0 0 "").setLifeStatus LifeStatus_LAUNCHING ⟨[], 0, []⟩).2.1).setLifeStatus
      LifeStatus_CLOSING
      ((RunningApp.new 0 0 0 "").setLifeStatus LifeStatus_LAUNCHING ⟨[], 0, []⟩).2.2).1 = true :=
  ⟨Reachable.setLifeStatus _ _ LifeStatus_LAUNCHING (Reachable.ctor 0 0 0 "" ⟨[], 0, []⟩),
   (setLifeStatus_closing_always _ _
      (Reachable.setLifeStatus _ _ LifeStatus_LAUNCHING (Reachable.ctor 0 0 0 "" ⟨[], 0, []⟩))).1⟩

/-- C4: in every state reachable from the constructor state by `setLifeStatus`
calls and killing-timer firings, `m_killingTimer != 0` holds if and only if
the life status is one of the six transition states. -/
theorem killingTimer_armed_iff_transition (app : RunningApp) (sv : Services)
    (h : Reachable app sv) :
    app.m_killingTimer ≠ 0 ↔
      app.m_lifeStatus ∈ [LifeStatus_PRELOADING, LifeStatus_SPLASHING, LifeStatus_LAUNCHING,
        LifeStatus_RELAUNCHING, LifeStatus_PAUSING, LifeStatus_CLOSING] := by
  have hinv := timerInv_of_reachable h
  unfold TimerInv at hinv
  rw [hinv]
  cases app.m_lifeStatus <;> simp [isTransition]

/-- C4 on a run: constructor, `setLifeStatus(LAUNCHING)`, then a firing of the
killing timer whose handler requests CLOSING. -/
theorem killingTimer_armed_iff_transition_witness :
    (scriptedKill [LifeStatus_CLOSING]
        ((RunningApp.new 0 0 0 "").setLifeStatus LifeStatus_LAUNCHING ⟨[], 0, []⟩).2.1
        ⟨[Event.postGetAppLifeStatus
            ((RunningApp.new 0 0 0 "").setLifeStatus LifeStatus_LAUNCHING ⟨[], 0, []⟩).2.1,
          Event.postGetAppLifeEvents
            ((RunningApp.new 0 0 0 "").setLifeStatus LifeStatus_LAUNCHING ⟨[], 0, []⟩).2.1,
          Event.kill
            ((RunningApp.new 0 0 0 "").setLifeStatus LifeStatus_LAUNCHING ⟨[], 0, []⟩).2.1],
          1, [⟨1, 15000⟩]⟩).1.m_killingTimer ≠ 0 ↔
    (scriptedKill [LifeStatus_CLOSING]
        ((RunningApp.new 0 0 0 "").setLifeStatus LifeStatus_LAUNCHING ⟨[], 0, []⟩).2.1
        ⟨[Event.postGetAppLifeStatus
            ((RunningApp.new 0 0 0 "").setLifeStatus LifeStatus_LAUNCHING ⟨[], 0, []⟩).2.1,
          Event.postGetAppLifeEvents
            ((RunningApp.new 0 0 0 "").setLifeStatus LifeStatus_LAUNCHING ⟨[], 0, []⟩).2.1,
          Event.kill
            ((RunningApp.new 0 0 0 "").setLifeStatus LifeStatus_LAUNCHING ⟨[], 0, []⟩).2.1],
          1, [⟨1, 15000⟩]⟩).1.m_lifeStatus ∈
      [LifeStatus_PRELOADING, LifeStatus_SPLASHING, LifeStatus_LAUNCHING,
        LifeStatus_RELAUNCHING, LifeStatus_PAUSING, LifeStatus_CLOSING] :=
  killingTimer_armed_iff_transition _ _
    (Reachable.onKillingTimer
      ((RunningApp.new 0 0 0 "").setLifeStatus LifeStatus_LAUNCHING ⟨[], 0, []⟩).2.1
      ((RunningApp.new 0 0 0 "").setLifeStatus LifeStatus_LAUNCHING ⟨[], 0, []⟩).2.2
      [LifeStatus_CLOSING] true _ _
      (Reachable.setLifeStatus _ _ LifeStatus_LAUNCHING (Reachable.ctor 0 0 0 "" ⟨[], 0, []⟩))
      (by decide) rfl)

/-- C5: self-relaunch in FOREGROUND.  `setLifeStatus(LAUNCHING)` on an app in
FOREGROUND returns true; the events it posts are one status event whose
snapshot reads RELAUNCHING, then the status event and the life event of the
final state; the app ends in FOREGROUND with `m_launchCount` one higher and
the killing timer not armed. -/
theorem setLifeStatus_selfRelaunch (self : RunningApp) (sv : Services)
    (h : self.m_lifeStatus = LifeStatus_FOREGROUND) :
    (self.setLifeStatus LifeStatus_LAUNCHING sv).1 = true ∧
    emitted sv (self.setLifeStatus LifeStatus_LAUNCHING sv).2.2 =
      [Event.postGetAppLifeStatus
          { self with m_launchCount := self.m_launchCount + 1,
                      m_lifeStatus := LifeStatus_RELAUNCHING },
        Event.postGetAppLifeStatus (self.setLifeStatus LifeStatus_LAUNCHING sv).2.1,
        Event.postGetAppLifeEvents (self.setLifeStatus LifeStatus_LAUNCHING sv).2.1] ∧
    (self.setLifeStatus LifeStatus_LAUNCHING sv).2.1.m_lifeStatus = LifeStatus_FOREGROUND ∧
    (self.setLifeStatus LifeStatus_LAUNCHING sv).2.1.m_launchCount = self.m_launchCount + 1 ∧
    (self.setLifeStatus LifeStatus_LAUNCHING sv).2.1.m_killingTimer = 0 := by
  refine ⟨?_, ?_, ?_, ?_, ?_⟩
  · simp [setLifeStatus, h, isTransition]
  · apply emitted_of_trace
    simp [setLifeStatus, setLifeStatusSwitch, h, isTransition, stopKillingTimer_fst,
      stopKillingTimer_trace, postGetAppLifeStatus, postGetAppLifeEvents]
  · simp [setLifeStatus, setLifeStatusSwitch, h, isTransition, stopKillingTimer_fst]
  · simp [setLifeStatus, setLifeStatusSwitch, h, isTransition, stopKillingTimer_fst]
  · simp [setLifeStatus, setLifeStatusSwitch, h, isTransition, stopKillingTimer_fst]

/-- C5 on an app in FOREGROUND with two earlier launches: the count becomes
three. -/
theorem setLifeStatus_selfRelaunch_witness :
    ({ RunningApp.new 0 0 0 "" with
        m_lifeStatus := LifeStatus_FOREGROUND, m_launchCount := 2 }.setLifeStatus
        LifeStatus_LAUNCHING ⟨[], 4, []⟩).2.1.m_launchCount = 2 + 1 :=
  (setLifeStatus_selfRelaunch
    { RunningApp.new 0 0 0 "" with m_lifeStatus := LifeStatus_FOREGROUND, m_launchCount := 2 }
    ⟨[], 4, []⟩ rfl).2.2.2.1

/-- C6: `setLifeStatus(LAUNCHING)` on an app in BACKGROUND, PAUSED or PRELOADED
returns true and the app ends in RELAUNCHING (not LAUNCHING) with
`m_launchCount` one higher and the killing timer armed. -/
theorem setLifeStatus_relaunch_from_steady (self : RunningApp) (sv : Services)
    (h : self.m_lifeStatus = LifeStatus_BACKGROUND ∨ self.m_lifeStatus = LifeStatus_PAUSED ∨
      self.m_lifeStatus = LifeStatus_PRELOADED) :
    (self.setLifeStatus LifeStatus_LAUNCHING sv).1 = true ∧
    (self.setLifeStatus LifeStatus_LAUNCHING sv).2.1.m_lifeStatus = LifeStatus_RELAUNCHING ∧
    (self.setLifeStatus LifeStatus_LAUNCHING sv).2.1.m_lifeStatus ≠ LifeStatus_LAUNCHING ∧
    (self.setLifeStatus LifeStatus_LAUNCHING sv).2.1.m_launchCount = self.m_launchCount + 1 ∧
    (self.setLifeStatus LifeStatus_LAUNCHING sv).2.1.m_killingTimer ≠ 0 := by
  rcases h with h | h | h <;>
    simp [setLifeStatus, setLifeStatusSwitch, h, isTransition, startKillingTimer_fst]

/-- C6 on an app in PAUSED. -/
theorem setLifeStatus_relaunch_from_steady_witness :
    ({ RunningApp.new 0 0 0 "" with m_lifeStatus := LifeStatus_PAUSED }.setLifeStatus
        LifeStatus_LAUNCHING ⟨[], 0, []⟩).2.1.m_lifeStatus = LifeStatus_RELAUNCHING :=
  (setLifeStatus_relaunch_from_steady
    { RunningApp.new 0 0 0 "" with m_lifeStatus := LifeStatus_PAUSED } ⟨[], 0, []⟩
    (Or.inr (Or.inl rfl))).2.1

/-- C7: `setLifeStatus` with the current status is a no-op that returns true:
the object (so `m_lifeStatus`, `m_launchCount` and `m_killingTimer`) and the
services (so the trace and the timers) are unchanged, for every status. -/
theorem setLifeStatus_same_noop (self : RunningApp) (sv : Services) :
    self.setLifeStatus self.m_lifeStatus sv = (true, self, sv) ∧
    (self.setLifeStatus self.m_lifeStatus sv).2.1.m_lifeStatus = self.m_lifeStatus ∧
    (self.setLifeStatus self.m_lifeStatus sv).2.1.m_launchCount = self.m_launchCount ∧
    (self.setLifeStatus self.m_lifeStatus sv).2.1.m_killingTimer = self.m_killingTimer := by
  simp [setLifeStatus]

/-- C8, as stated, fails: an app in STOP asked for STOP gets true although no
status-changed event is emitted. -/
theorem setLifeStatus_success_without_event :
    ((RunningApp.new 0 0 0 "").setLifeStatus LifeStatus_STOP ⟨[], 0, []⟩).1 = true ∧
    statusChanged
      (emitted ⟨[], 0, []⟩
        ((RunningApp.new 0 0 0 "").setLifeStatus LifeStatus_STOP ⟨[], 0, []⟩).2.2) = [] := by
  decide

/-- C8 amended: a `setLifeStatus` call with the current status returns true and
emits nothing; a call that returns true for a status different from the
current one emits exactly one status-changed event, carrying the final state,
except for FOREGROUND asked for LAUNCHING, which emits exactly two: the first
observing RELAUNCHING and the second the final state FOREGROUND. -/
theorem setLifeStatus_success_events (self : RunningApp) (b : LifeStatus) (sv : Services) :
    (self.m_lifeStatus = b →
      (self.setLifeStatus b sv).1 = true ∧ emitted sv (self.setLifeStatus b sv).2.2 = []) ∧
    (self.m_lifeStatus ≠ b → (self.setLifeStatus b sv).1 = true →
      ¬ (self.m_lifeStatus = LifeStatus_FOREGROUND ∧ b = LifeStatus_LAUNCHING) →
      statusChanged (emitted sv (self.setLifeStatus b sv).2.2) =
        [(self.setLifeStatus b sv).2.1]) ∧
    (self.m_lifeStatus = LifeStatus_FOREGROUND → b = LifeStatus_LAUNCHING →
      (self.setLifeStatus b sv).1 = true ∧
      statusChanged (emitted sv (self.setLifeStatus b sv).2.2) =
        [{ self with m_launchCount := self.m_launchCount + 1,
                     m_lifeStatus := LifeStatus_RELAUNCHING },
         (self.setLifeStatus b sv).2.1] ∧
      (self.setLifeStatus b sv).2.1.m_lifeStatus = LifeStatus_FOREGROUND) := by
  refine ⟨?_, ?_, ?_⟩
  · intro h
    simp [setLifeStatus, h, emitted]
  · intro hne hacc hnot
    have htr : (self.setLifeStatus b sv).2.2.trace = sv.trace ++
        [Event.postGetAppLifeStatus (self.setLifeStatus b sv).2.1,
         Event.postGetAppLifeEvents (self.setLifeStatus b sv).2.1] := by
      cases hs : self.m_lifeStatus <;> cases b <;>
        simp_all [setLifeStatus, setLifeStatusSwitch, isTransition, startKillingTimer_fst,
          stopKillingTimer_fst, startKillingTimer_trace, stopKillingTimer_trace,
          postGetAppLifeStatus, postGetAppLifeEvents]
    rw [emitted_of_trace _ _ _ htr]
    simp [statusChanged]
  · intro h hb
    subst hb
    have h5 := setLifeStatus_selfRelaunch_aux self sv h
    rw [h5.2.1]
    exact ⟨h5.1, by simp [statusChanged], h5.2.2⟩

/-- C8 amended, at the self-relaunch collapse: an app in FOREGROUND asked for
LAUNCHING emits two status-changed events. -/
theorem setLifeStatus_success_events_witness :
    ({ RunningApp.new 0 0 0 "" with m_lifeStatus := LifeStatus_FOREGROUND }.setLifeStatus
        LifeStatus_LAUNCHING ⟨[], 0, []⟩).1 = true ∧
    statusChanged (emitted ⟨[], 0, []⟩
      ({ RunningApp.new 0 0 0 "" with m_lifeStatus := LifeStatus_FOREGROUND }.setLifeStatus
        LifeStatus_LAUNCHING ⟨[], 0, []⟩).2.2) =
      [{ RunningApp.new 0 0 0 "" with m_launchCount := 1, m_lifeStatus := LifeStatus_RELAUNCHING },
       ({ RunningApp.new 0 0 0 "" with m_lifeStatus := LifeStatus_FOREGROUND }.setLifeStatus
        LifeStatus_LAUNCHING ⟨[], 0, []⟩).2.1] ∧
    ({ RunningApp.new 0 0 0 "" with m_lifeStatus := LifeStatus_FOREGROUND }.setLifeStatus
        LifeStatus_LAUNCHING ⟨[], 0, []⟩).2.1.m_lifeStatus = LifeStatus_FOREGROUND :=
  (setLifeStatus_success_events
    { RunningApp.new 0 0 0 "" with m_lifeStatus := LifeStatus_FOREGROUND }
    LifeStatus_LAUNCHING ⟨[], 0, []⟩).2.2 rfl rfl

/-- C9: `setLifeStatus` never decreases `m_launchCount`; it adds exactly one
when the call is accepted with a requested status of PRELOADING or LAUNCHING
different from the current status, and leaves it unchanged in every other
case (a request for RELAUNCHING included). -/
theorem setLifeStatus_launchCount (self : RunningApp) (b : LifeStatus) (sv : Services) :
    self.m_launchCount ≤ (self.setLifeStatus b sv).2.1.m_launchCount ∧
    (self.setLifeStatus b sv).2.1.m_launchCount =
      (if (self.setLifeStatus b sv).1 = true ∧ self.m_lifeStatus ≠ b ∧
          (b = LifeStatus_PRELOADING ∨ b = LifeStatus_LAUNCHING)
        then self.m_launchCount + 1 else self.m_launchCount) := by
  cases hs : self.m_lifeStatus <;> cases b <;>
    simp [setLifeStatus, setLifeStatusSwitch, isTransition, hs, startKillingTimer_fst,
      stopKillingTimer_fst]

/-- C10: every removal path stops what it removes.  In a registry whose
entries hold distinct objects that satisfy the timer invariant (as every
reachable `RunningApp` does), `removeByObject`, `removeByInstanceId` and
`removeByPid` erase the first matching entry (and report whether there was
one), `removeAllByType`, `removeAllByConext` and `removeAllByLaunchPoint`
erase every matching entry and return true; whatever life status a removed
object was in, it ends with status STOP and `m_killingTimer == 0`, and
`onRemove` is called exactly once on it and on nothing else. -/
theorem removal_paths_stop_once (self : RunningAppList) (w : World)
    (hinv : ∀ e ∈ self.m_map, TimerInv (w.objs e.2))
    (hdistinct : (self.m_map.map Prod.snd).Nodup) :
    (∀ runningApp : Option Nat,
      (self.removeByObject runningApp w).1 =
        (self.m_map.find? (fun e => some e.2 == runningApp)).isSome ∧
      (self.removeByObject runningApp w).2.1.m_map =
        self.m_map.eraseP (fun e => some e.2 == runningApp) ∧
      RemovalDone w (self.removeByObject runningApp w).2.2
        ((self.m_map.find? (fun e => some e.2 == runningApp)).toList.map Prod.snd)) ∧
    (∀ instanceId : String,
      (self.removeByInstanceId instanceId w).1 =
        (self.m_map.find? (fun e => (w.objs e.2).m_instanceId == instanceId)).isSome ∧
      (self.removeByInstanceId instanceId w).2.1.m_map =
        self.m_map.eraseP (fun e => (w.objs e.2).m_instanceId == instanceId) ∧
      RemovalDone w (self.removeByInstanceId instanceId w).2.2
        ((self.m_map.find? (fun e => (w.objs e.2).m_instanceId == instanceId)).toList.map
          Prod.snd)) ∧
    (∀ pid : Int,
      (self.removeByPid pid w).1 =
        (self.m_map.find? (fun e => (w.objs e.2).m_processId == pid)).isSome ∧
      (self.removeByPid pid w).2.1.m_map =
        self.m_map.eraseP (fun e => (w.objs e.2).m_processId == pid) ∧
      RemovalDone w (self.removeByPid pid w).2.2
        ((self.m_map.find? (fun e => (w.objs e.2).m_processId == pid)).toList.map Prod.snd)) ∧
    (∀ type : AppType,
      (self.removeAllByType type w).1 = true ∧
      (self.removeAllByType type w).2.1.m_map =
        self.m_map.filter (fun e => !(w.getAppType e.2 == type)) ∧
      RemovalDone w (self.removeAllByType type w).2.2
        ((self.m_map.filter (fun e => w.getAppType e.2 == type)).map Prod.snd)) ∧
    (∀ (type : AppType) (context : Int),
      (self.removeAllByConext type context w).1 = true ∧
      (self.removeAllByConext type context w).2.1.m_map =
        self.m_map.filter
          (fun e => !(w.getAppType e.2 == type && (w.objs e.2).m_context == context)) ∧
      RemovalDone w (self.removeAllByConext type context w).2.2
        ((self.m_map.filter
          (fun e => w.getAppType e.2 == type && (w.objs e.2).m_context == context)).map
            Prod.snd)) ∧
    (∀ launchPoint : Option Nat,
      (self.removeAllByLaunchPoint launchPoint w).1 = true ∧
      (self.removeAllByLaunchPoint launchPoint w).2.1.m_map =
        self.m_map.filter (fun e => !(some (w.objs e.2).m_launchPoint == launchPoint)) ∧
      RemovalDone w (self.removeAllByLaunchPoint launchPoint w).2.2
        ((self.m_map.filter
          (fun e => some (w.objs e.2).m_launchPoint == launchPoint)).map Prod.snd)) := by
  refine ⟨?_, ?_, ?_, ?_, ?_, ?_⟩
  · intro runningApp
    cases runningApp with
    | none =>
        have hno : ∀ e ∈ self.m_map, ¬ ((some e.2 == (none : Option Nat)) = true) := by
          intro e _
          simp
        have hfind : self.m_map.find? (fun e => some e.2 == (none : Option Nat)) = none := by
          simp
        rw [hfind, List.eraseP_of_forall_not hno]
        exact ⟨rfl, rfl, by simpa [RunningAppList.removeByObject] using removalDone_nil w⟩
    | some ptr =>
        have hfun : (fun e : String × Nat => some e.2 == some ptr) =
            (fun e : String × Nat => (fun second => second == ptr) e.2) := by
          funext e
          simp
        rw [hfun]
        apply first_path_done (fun second => second == ptr) self.m_map w hinv
        · intro found h
          simp [RunningAppList.removeByObject, h]
        · intro h
          simp [RunningAppList.removeByObject, h]
  · intro instanceId
    apply first_path_done (fun second => (w.objs second).m_instanceId == instanceId)
      self.m_map w hinv
    · intro found h
      simp [RunningAppList.removeByInstanceId, h]
    · intro h
      simp [RunningAppList.removeByInstanceId, h]
  · intro pid
    apply first_path_done (fun second => (w.objs second).m_processId == pid) self.m_map w hinv
    · intro found h
      simp [RunningAppList.removeByPid, h]
    · intro h
      simp [RunningAppList.removeByPid, h]
  · intro type
    have h := all_path_done (fun w0 second => w0.getAppType second == type)
      (fun w0 w1 hs q => by simp [World.getAppType, hs.1, (hs.2 q).1])
      self.m_map w hinv hdistinct
    exact ⟨rfl, h.1, h.2⟩
  · intro type context
    have h := all_path_done
      (fun w0 second => w0.getAppType second == type && (w0.objs second).m_context == context)
      (fun w0 w1 hs q => by simp [World.getAppType, hs.1, (hs.2 q).1, (hs.2 q).2.1])
      self.m_map w hinv hdistinct
    exact ⟨rfl, h.1, h.2⟩
  · intro launchPoint
    have h := all_path_done
      (fun w0 second => some (w0.objs second).m_launchPoint == launchPoint)
      (fun w0 w1 hs q => by simp [(hs.2 q).1])
      self.m_map w hinv hdistinct
    exact ⟨rfl, h.1, h.2⟩

/-- C10 on the concrete registry: `removeAllByType(Native)` removes the
objects at addresses 1 (it was in LAUNCHING) and 3; the one at address 1 ends
stopped and saw `onRemove` once. -/
theorem removal_paths_stop_once_witness :
    (∀ e ∈ exampleRegistry.m_map, TimerInv (exampleWorld.objs e.2)) ∧
    (exampleRegistry.m_map.map Prod.snd).Nodup ∧
    Stopped ((exampleRegistry.removeAllByType AppType.AppType_Native exampleWorld).2.2.objs 1) ∧
    (onRemoveCalls (emitted exampleWorld.sv
      (exampleRegistry.removeAllByType AppType.AppType_Native exampleWorld).2.2.sv)).count 1
        = 1 :=
  ⟨by simp [exampleRegistry, exampleWorld, TimerInv, RunningApp.new, isTransition],
   by decide,
   ((removal_paths_stop_once exampleRegistry exampleWorld
      (by simp [exampleRegistry, exampleWorld, TimerInv, RunningApp.new, isTransition])
      (by decide)).2.2.2.1 AppType.AppType_Native).2.2.2 1
      (by simp [exampleRegistry, exampleWorld, World.getAppType, RunningApp.new])⟩

open RunningAppList

/-! ### Identifiers -/

theorem getDisplayId_append (uid tail : String) (h : tail.data ≠ []) :
    getDisplayId (uid ++ tail) = getDisplayId tail := by
  unfold getDisplayId
  cases hl : tail.data.getLast? with
  | none => exact absurd (List.getLast?_eq_none_iff.1 hl) h
  | some back => simp [String.data_append, List.getLast?_append, hl]

/-- C20: display-id round trip.  For every uid string and every `d` in 0..9,
`getDisplayId(generateInstanceId(d))` is `d`, and `generateInstanceId(d)` is
the uid followed by the decimal text of `d`. -/
theorem getDisplayId_generateInstanceId (uid : String) (d : Int) (h0 : 0 ≤ d) (h9 : d ≤ 9) :
    generateInstanceId uid d = uid ++ toString d ∧
    getDisplayId (generateInstanceId uid d) = some d := by
  refine ⟨rfl, ?_⟩
  unfold generateInstanceId
  interval_cases d
  all_goals
    rw [getDisplayId_append uid _ (by decide)]
    decide

/-- C20 on the uid of a concrete instance id and display 7. -/
theorem getDisplayId_generateInstanceId_witness :
    getDisplayId (generateInstanceId "3f2a9c" 7) = some 7 :=
  (getDisplayId_generateInstanceId "3f2a9c" 7 (by decide) (by decide)).2

/-! ### Lookup -/

theorem getByLaunchPointIdLoop_some (launchPointId : String) (displayId : Int) (w : World)
    (m : List (String × Nat)) (p : Nat)
    (h : getByLaunchPointIdLoop launchPointId displayId w m = some p) :
    (∃ e ∈ m, e.2 = p) ∧ getLaunchPointId w p = launchPointId ∧
    (displayId = -1 ∨ (w.objs p).m_displayId = displayId) := by
  induction m with
  | nil => simp [getByLaunchPointIdLoop] at h
  | cons e rest ih =>
      unfold getByLaunchPointIdLoop at h
      split_ifs at h with h1 h2 h3
      · simp only [Option.some.injEq] at h
        subst h
        exact ⟨⟨e, List.mem_cons_self _ _, rfl⟩, by simpa using h1, Or.inl (by simpa using h2)⟩
      · simp only [Option.some.injEq] at h
        subst h
        exact ⟨⟨e, List.mem_cons_self _ _, rfl⟩, by simpa using h1, Or.inr (by simpa using h3)⟩
      · obtain ⟨⟨x, hx, hxp⟩, hr⟩ := ih h
        exact ⟨⟨x, List.mem_cons_of_mem _ hx, hxp⟩, hr⟩
      · obtain ⟨⟨x, hx, hxp⟩, hr⟩ := ih h
        exact ⟨⟨x, List.mem_cons_of_mem _ hx, hxp⟩, hr⟩

theorem getByAppIdLoop_some (appId : String) (displayId : Int) (w : World)
    (m : List (String × Nat)) (p : Nat)
    (h : getByAppIdLoop appId displayId w m = some p) :
    (∃ e ∈ m, e.2 = p) ∧ getAppId w p = appId ∧
    (displayId = -1 ∨ (w.objs p).m_displayId = displayId) := by
  induction m with
  | nil => simp [getByAppIdLoop] at h
  | cons e rest ih =>
      unfold getByAppIdLoop at h
      split_ifs at h with h1 h2 h3
      · simp only [Option.some.injEq] at h
        subst h
        exact ⟨⟨e, List.mem_cons_self _ _, rfl⟩, by simpa using h1, Or.inl (by simpa using h2)⟩
      · simp only [Option.some.injEq] at h
        subst h
        exact ⟨⟨e, List.mem_cons_self _ _, rfl⟩, by simpa using h1, Or.inr (by simpa using h3)⟩
      · obtain ⟨⟨x, hx, hxp⟩, hr⟩ := ih h
        exact ⟨⟨x, List.mem_cons_of_mem _ hx, hxp⟩, hr⟩
      · obtain ⟨⟨x, hx, hxp⟩, hr⟩ := ih h
        exact ⟨⟨x, List.mem_cons_of_mem _ hx, hxp⟩, hr⟩

theorem getByInstanceId_some (self : RunningAppList) (instanceId : String) (p : Nat)
    (h : self.getByInstanceId instanceId = some p) :
    instanceId ≠ "" ∧ (instanceId, p) ∈ self.m_map := by
  unfold getByInstanceId at h
  split_ifs at h with h1
  cases hf : mapFind instanceId self.m_map with
  | none => simp [hf] at h
  | some it =>
      simp only [hf, Option.some.injEq] at h
      have hmem := List.mem_of_find?_eq_some hf
      have hkey := List.find?_some hf
      simp only [beq_iff_eq] at hkey
      refine ⟨fun hc => h1 ((String.isEmpty_iff _).2 hc), ?_⟩
      rw [← hkey, ← h]
      exact hmem

theorem getByIds_lookup (self : RunningAppList) (instanceId launchPointId appId : String)
    (displayId : Int) (w : World) (q : Nat)
    (hq : (if !instanceId.isEmpty then self.getByInstanceId instanceId
      else if !launchPointId.isEmpty then self.getByLaunchPointId launchPointId displayId w
      else if !appId.isEmpty then self.getByAppId appId displayId w
      else none) = some q) : ∃ e ∈ self.m_map, e.2 = q := by
  split_ifs at hq with d1 d2 d3
  · obtain ⟨_, hm⟩ := getByInstanceId_some self instanceId q hq
    exact ⟨_, hm, rfl⟩
  · exact (getByLaunchPointIdLoop_some _ _ _ _ _ hq).1
  · exact (getByAppIdLoop_some _ _ _ _ _ hq).1

theorem getByIds_validate (found : Option Nat) (instanceId launchPointId appId : String)
    (displayId : Int) (w : World) (p : Nat)
    (h : (match found with
      | none => none
      | some runningApp =>
          if !instanceId.isEmpty && instanceId != (w.objs runningApp).m_instanceId then none
          else if !launchPointId.isEmpty && launchPointId != getLaunchPointId w runningApp then
            none
          else if !appId.isEmpty && appId != getAppId w runningApp then none
          else if displayId != -1 && displayId != (w.objs runningApp).m_displayId then none
          else some runningApp) = some p) :
    found = some p ∧
    (instanceId ≠ "" → (w.objs p).m_instanceId = instanceId) ∧
    (launchPointId ≠ "" → getLaunchPointId w p = launchPointId) ∧
    (appId ≠ "" → getAppId w p = appId) ∧
    (displayId ≠ -1 → (w.objs p).m_displayId = displayId) := by
  cases found with
  | none => simp at h
  | some q =>
      simp only at h
      split_ifs at h with c1 c2 c3 c4
      simp only [Option.some.injEq] at h
      subst h
      refine ⟨rfl, ?_, ?_, ?_, ?_⟩
      · intro hne
        have he : instanceId.isEmpty = false :=
          Bool.eq_false_iff.2 (fun hc => hne ((String.isEmpty_iff _).1 hc))
        simp at c1
        exact (c1 he).symm
      · intro hne
        have he : launchPointId.isEmpty = false :=
          Bool.eq_false_iff.2 (fun hc => hne ((String.isEmpty_iff _).1 hc))
        simp at c2
        exact (c2 he).symm
      · intro hne
        have he : appId.isEmpty = false :=
          Bool.eq_false_iff.2 (fun hc => hne ((String.isEmpty_iff _).1 hc))
        simp at c3
        exact (c3 he).symm
      · intro hne
        simp [hne] at c4
        exact c4.symm

/-- C13: `getByIds` never returns a wrong match.  An address it returns is
stored in the registry, and the object there agrees with every argument that
was provided: its instance id, launch point id and app id equal each of the
arguments that is not empty, and its display id equals `displayId` whenever
`displayId != -1`. -/
theorem getByIds_never_wrong (self : RunningAppList) (instanceId launchPointId appId : String)
    (displayId : Int) (w : World) (p : Nat)
    (h : self.getByIds instanceId launchPointId appId displayId w = some p) :
    (∃ e ∈ self.m_map, e.2 = p) ∧
    (instanceId ≠ "" → (w.objs p).m_instanceId = instanceId) ∧
    (launchPointId ≠ "" → getLaunchPointId w p = launchPointId) ∧
    (appId ≠ "" → getAppId w p = appId) ∧
    (displayId ≠ -1 → (w.objs p).m_displayId = displayId) := by
  obtain ⟨hfound, hrest⟩ := getByIds_validate _ instanceId launchPointId appId displayId w p h
  exact ⟨getByIds_lookup self instanceId launchPointId appId displayId w p hfound, hrest⟩

/-- C13 on the concrete registry: the query by instance id "c0" and app id "n"
returns the object at address 3, whose app id is indeed "n". -/
theorem getByIds_never_wrong_witness :
    exampleRegistry.getByIds "c0" "" "n" (-1) exampleWorld = some 3 ∧
    getAppId exampleWorld 3 = "n" :=
  ⟨by decide,
   (getByIds_never_wrong exampleRegistry "c0" "" "n" (-1) exampleWorld 3 (by decide)).2.2.2.1
      (by decide)⟩

/-! ### Relaunch, registration, close -/

theorem respondCalls_append (xs ys : List Event) :
    respondCalls (xs ++ ys) = respondCalls xs ++ respondCalls ys := by
  induction xs with
  | nil => rfl
  | cons e rest ih => cases e <;> simp [respondCalls, ih]

theorem handlerRelaunchCalls_append (xs ys : List Event) :
    handlerRelaunchCalls (xs ++ ys) = handlerRelaunchCalls xs ++ handlerRelaunchCalls ys := by
  induction xs with
  | nil => rfl
  | cons e rest ih => cases e <;> simp [handlerRelaunchCalls, ih]

theorem completedTasks_append (xs ys : List Event) :
    completedTasks (xs ++ ys) = completedTasks xs ++ completedTasks ys := by
  induction xs with
  | nil => rfl
  | cons e rest ih => cases e <;> simp [completedTasks, ih]

theorem setLifeStatus_trace_cases (self : RunningApp) (b : LifeStatus) (sv : Services) :
    (self.setLifeStatus b sv).2.2.trace = sv.trace ∨
    (self.setLifeStatus b sv).2.2.trace = sv.trace ++
      [Event.postGetAppLifeStatus (self.setLifeStatus b sv).2.1,
       Event.postGetAppLifeEvents (self.setLifeStatus b sv).2.1] ∨
    (self.setLifeStatus b sv).2.2.trace = sv.trace ++
      [Event.postGetAppLifeStatus
        { self with m_launchCount := self.m_launchCount + 1,
                    m_lifeStatus := LifeStatus_RELAUNCHING },
       Event.postGetAppLifeStatus (self.setLifeStatus b sv).2.1,
       Event.postGetAppLifeEvents (self.setLifeStatus b sv).2.1] := by
  cases hs : self.m_lifeStatus <;> cases b <;>
    simp [setLifeStatus, setLifeStatusSwitch, isTransition, hs, startKillingTimer_fst,
      stopKillingTimer_fst, startKillingTimer_trace, stopKillingTimer_trace,
      postGetAppLifeStatus, postGetAppLifeEvents]

theorem setLifeStatus_trace_quiet (self : RunningApp) (b : LifeStatus) (sv : Services) :
    ∃ tr, (self.setLifeStatus b sv).2.2.trace = sv.trace ++ tr ∧ respondCalls tr = [] ∧
      handlerRelaunchCalls tr = [] ∧ completedTasks tr = [] ∧ onRemoveCalls tr = [] ∧
      onAddCalls tr = [] := by
  rcases setLifeStatus_trace_cases self b sv with h | h | h
  · exact ⟨[], by simpa using h, rfl, rfl, rfl, rfl, rfl⟩
  · exact ⟨_, h, rfl, rfl, rfl, rfl, rfl⟩
  · exact ⟨_, h, rfl, rfl, rfl, rfl, rfl⟩

theorem setLifeStatus_registration (self : RunningApp) (b : LifeStatus) (sv : Services) :
    (self.setLifeStatus b sv).2.1.m_isRegistered = self.m_isRegistered ∧
    (self.setLifeStatus b sv).2.1.m_registeredApp = self.m_registeredApp := by
  cases hs : self.m_lifeStatus <;> cases b <;>
    simp [setLifeStatus, setLifeStatusSwitch, isTransition, hs, startKillingTimer_fst,
      stopKillingTimer_fst]

theorem getRelaunchParams_eq (lunaTask : LunaTask) :
    getRelaunchParams lunaTask =
      JValue.object
        [("returnValue", JValue.bool true), ("event", JValue.string "relaunch"),
         ("message", JValue.string "relaunch"), ("parameters", lunaTask.params),
         ("reason", JValue.string lunaTask.reason), ("appId", JValue.string lunaTask.appId)] := by
  rfl

theorem relaunch_fast_trace (self : RunningApp)
    (handlerRelaunch : RunningApp → LunaTask → Services → RunningApp × Services)
    (lunaTask : LunaTask) (sv : Services) (hreg : self.m_isRegistered = true) :
    (self.relaunch true handlerRelaunch lunaTask sv).1 =
      (self.setLifeStatus LifeStatus_LAUNCHING sv).2.1 ∧
    (self.relaunch true handlerRelaunch lunaTask sv).2.trace =
      (self.setLifeStatus LifeStatus_LAUNCHING sv).2.2.trace ++
        [Event.respond self.m_registeredApp (getRelaunchParams lunaTask),
         Event.toJson lunaTask, Event.removeAfterReply lunaTask none] := by
  have hr := setLifeStatus_registration self LifeStatus_LAUNCHING sv
  have hput : (getRelaunchParams lunaTask).put "returnValue" (JValue.bool true) =
      getRelaunchParams lunaTask := by rfl
  simp [relaunch, isRegistered, hreg, sendEvent, hr.1, hr.2, hput, removeAfterReply, taskToJson]

/-- C16, as stated, fails: a registered app in FOREGROUND with the relaunch
flag on is not in LAUNCHING after `relaunch`; it is still in FOREGROUND. -/
theorem relaunch_registered_foreground_stays :
    ({ RunningApp.new 10 101 0 "" with
        m_lifeStatus := LifeStatus_FOREGROUND, m_isRegistered := true,
        m_registeredApp := 5 }.relaunch true inertHandler
      ⟨8, "n", "n_default", "a0", 0, JValue.null, JValue.object [("x", JValue.number 1)], "user"⟩
      ⟨[], 0, []⟩).1.m_lifeStatus = LifeStatus_FOREGROUND ∧
    ({ RunningApp.new 10 101 0 "" with
        m_lifeStatus := LifeStatus_FOREGROUND, m_isRegistered := true,
        m_registeredApp := 5 }.relaunch true inertHandler
      ⟨8, "n", "n_default", "a0", 0, JValue.null, JValue.object [("x", JValue.number 1)], "user"⟩
      ⟨[], 0, []⟩).1.m_lifeStatus ≠ LifeStatus_LAUNCHING := by
  decide

/-- C16 amended: for a registered app with the relaunch flag on, `relaunch`
leaves the life status that `setLifeStatus(LAUNCHING)` produces: LAUNCHING when
the app was in STOP, SPLASHED or LAUNCHING; FOREGROUND when it was in
FOREGROUND; RELAUNCHING when it was in BACKGROUND, PAUSED or PRELOADED; and the
status it had when it was in PRELOADING, SPLASHING, RELAUNCHING, PAUSING or
CLOSING. -/
theorem relaunch_registered_status (self : RunningApp)
    (handlerRelaunch : RunningApp → LunaTask → Services → RunningApp × Services)
    (lunaTask : LunaTask) (sv : Services) (hreg : self.m_isRegistered = true) :
    (self.relaunch true handlerRelaunch lunaTask sv).1.m_lifeStatus =
      (self.setLifeStatus LifeStatus_LAUNCHING sv).2.1.m_lifeStatus ∧
    (self.m_lifeStatus ∈ [LifeStatus_STOP, LifeStatus_SPLASHED, LifeStatus_LAUNCHING] →
      (self.relaunch true handlerRelaunch lunaTask sv).1.m_lifeStatus = LifeStatus_LAUNCHING) ∧
    (self.m_lifeStatus = LifeStatus_FOREGROUND →
      (self.relaunch true handlerRelaunch lunaTask sv).1.m_lifeStatus = LifeStatus_FOREGROUND) ∧
    (self.m_lifeStatus ∈ [LifeStatus_BACKGROUND, LifeStatus_PAUSED, LifeStatus_PRELOADED] →
      (self.relaunch true handlerRelaunch lunaTask sv).1.m_lifeStatus =
        LifeStatus_RELAUNCHING) ∧
    (self.m_lifeStatus ∈ [LifeStatus_PRELOADING, LifeStatus_SPLASHING, LifeStatus_RELAUNCHING,
        LifeStatus_PAUSING, LifeStatus_CLOSING] →
      (self.relaunch true handlerRelaunch lunaTask sv).1.m_lifeStatus = self.m_lifeStatus) := by
  rw [(relaunch_fast_trace self handlerRelaunch lunaTask sv hreg).1]
  refine ⟨rfl, ?_, ?_, ?_, ?_⟩ <;> intro h <;>
    cases hs : self.m_lifeStatus <;>
    simp_all [setLifeStatus, setLifeStatusSwitch, isTransition, startKillingTimer_fst,
      stopKillingTimer_fst]

/-- C16 amended, on a registered app in STOP: it is in LAUNCHING afterwards. -/
theorem relaunch_registered_status_witness :
    ({ RunningApp.new 10 101 0 "" with m_isRegistered := true, m_registeredApp := 5 }.relaunch
      true inertHandler
      ⟨8, "n", "n_default", "a0", 0, JValue.null, JValue.object [("x", JValue.number 1)], "user"⟩
      ⟨[], 0, []⟩).1.m_lifeStatus = LifeStatus_LAUNCHING :=
  (relaunch_registered_status
    { RunningApp.new 10 101 0 "" with m_isRegistered := true, m_registeredApp := 5 }
    inertHandler
    ⟨8, "n", "n_default", "a0", 0, JValue.null, JValue.object [("x", JValue.number 1)], "user"⟩
    ⟨[], 0, []⟩ rfl).2.1 (by decide)

/-- C17: the relaunch fast-path and its alternative.  When the app is
registered and the relaunch flag is on, the life handler's `relaunch` is not
called, exactly one event is pushed over the registration channel (the held
handle) and it carries `returnValue` true, `event` and `message` "relaunch",
the task's params as `parameters`, its reason and its app id, and the task is
completed once, without error.  When the app is not registered or the flag is
off, `relaunch` does nothing but call the life handler's `relaunch` once: with
a handler that is silent itself no event is pushed. -/
theorem relaunch_fast_path_events (self : RunningApp) (lunaTask : LunaTask) (sv : Services)
    (handlerRelaunch : RunningApp → LunaTask → Services → RunningApp × Services) :
    (self.m_isRegistered = true →
      handlerRelaunchCalls (emitted sv (self.relaunch true handlerRelaunch lunaTask sv).2) = [] ∧
      respondCalls (emitted sv (self.relaunch true handlerRelaunch lunaTask sv).2) =
        [(self.m_registeredApp,
          JValue.object
            [("returnValue", JValue.bool true), ("event", JValue.string "relaunch"),
             ("message", JValue.string "relaunch"), ("parameters", lunaTask.params),
             ("reason", JValue.string lunaTask.reason),
             ("appId", JValue.string lunaTask.appId)])] ∧
      completedTasks (emitted sv (self.relaunch true handlerRelaunch lunaTask sv).2) =
        [(lunaTask, none)]) ∧
    (∀ isAppRelaunchSupported : Bool,
      (self.m_isRegistered = false ∨ isAppRelaunchSupported = false) →
      self.relaunch isAppRelaunchSupported handlerRelaunch lunaTask sv =
        handlerRelaunch self lunaTask
          { sv with trace := sv.trace ++ [Event.relaunch self lunaTask] } ∧
      respondCalls (emitted sv (self.relaunch isAppRelaunchSupported inertHandler lunaTask sv).2)
        = [] ∧
      handlerRelaunchCalls
        (emitted sv (self.relaunch isAppRelaunchSupported inertHandler lunaTask sv).2) =
        [(self, lunaTask)]) := by
  constructor
  · intro hreg
    obtain ⟨tr, htr, h1, h2, h3, _, _⟩ := setLifeStatus_trace_quiet self LifeStatus_LAUNCHING sv
    have hfast := (relaunch_fast_trace self handlerRelaunch lunaTask sv hreg).2
    rw [htr, List.append_assoc] at hfast
    rw [emitted_of_trace _ _ _ hfast]
    simp [handlerRelaunchCalls_append, respondCalls_append, completedTasks_append, h1, h2, h3,
      handlerRelaunchCalls, respondCalls, completedTasks, getRelaunchParams_eq]
  · intro flag hslow
    have hcond : (self.isRegistered && flag) = false := by
      rcases hslow with h | h <;> simp [isRegistered, h]
    have hgen : ∀ handler : RunningApp → LunaTask → Services → RunningApp × Services,
        self.relaunch flag handler lunaTask sv =
          handler self lunaTask { sv with trace := sv.trace ++ [Event.relaunch self lunaTask] } := by
      intro handler
      simp [relaunch, hcond]
    refine ⟨hgen handlerRelaunch, ?_, ?_⟩
    · rw [hgen inertHandler]
      simp [inertHandler, emitted, respondCalls]
    · rw [hgen inertHandler]
      simp [inertHandler, emitted, handlerRelaunchCalls]

/-- C17 at the spec's scenario: a registered app in FOREGROUND, flag on, task
with params `x: 1`: one event on the held handle 5 with those parameters. -/
theorem relaunch_fast_path_events_witness :
    respondCalls (emitted ⟨[], 0, []⟩
      ({ RunningApp.new 10 101 0 "" with
          m_lifeStatus := LifeStatus_FOREGROUND, m_isRegistered := true,
          m_registeredApp := 5 }.relaunch true inertHandler
        ⟨8, "n", "n_default", "a0", 0, JValue.null, JValue.object [("x", JValue.number 1)],
          "user"⟩
        ⟨[], 0, []⟩).2) =
      [(5, JValue.object
        [("returnValue", JValue.bool true), ("event", JValue.string "relaunch"),
         ("message", JValue.string "relaunch"),
         ("parameters", JValue.object [("x", JValue.number 1)]),
         ("reason", JValue.string "user"), ("appId", JValue.string "n")])] :=
  ((relaunch_fast_path_events
    { RunningApp.new 10 101 0 "" with
        m_lifeStatus := LifeStatus_FOREGROUND, m_isRegistered := true, m_registeredApp := 5 }
    ⟨8, "n", "n_default", "a0", 0, JValue.null, JValue.object [("x", JValue.number 1)], "user"⟩
    ⟨[], 0, []⟩ inertHandler).1 rfl).2.1

/-- C18: registration is one-shot.  On an app that is already registered,
`registerApp(newTask)` completes the new task with `ErrCode_GENERAL`, pushes no
event over any handle, and leaves the object as it was, so `m_isRegistered`
stays true and `m_registeredApp` is the handle held before. -/
theorem registerApp_already_registered (self : RunningApp) (lunaTask : LunaTask)
    (sv : Services) (hreg : self.m_isRegistered = true) :
    (self.registerApp lunaTask sv).1 = self ∧
    (self.registerApp lunaTask sv).1.m_isRegistered = true ∧
    (self.registerApp lunaTask sv).1.m_registeredApp = self.m_registeredApp ∧
    emitted sv (self.registerApp lunaTask sv).2 =
      [Event.removeAfterReply lunaTask
        (some (ErrCode.ErrCode_GENERAL, "The app is already registered"))] ∧
    respondCalls (emitted sv (self.registerApp lunaTask sv).2) = [] ∧
    completedTasks (emitted sv (self.registerApp lunaTask sv).2) =
      [(lunaTask, some (ErrCode.ErrCode_GENERAL, "The app is already registered"))] := by
  have hem : emitted sv (self.registerApp lunaTask sv).2 =
      [Event.removeAfterReply lunaTask
        (some (ErrCode.ErrCode_GENERAL, "The app is already registered"))] := by
    apply emitted_of_trace
    simp [registerApp, hreg, removeAfterReply]
  rw [hem]
  refine ⟨?_, ?_, ?_, rfl, rfl, rfl⟩ <;> simp [registerApp, hreg]

/-- C18 on an app registered on handle 5 that receives a second registration
on handle 9: the held handle is still 5. -/
theorem registerApp_already_registered_witness :
    ({ RunningApp.new 10 101 0 "" with m_isRegistered := true, m_registeredApp := 5 }.registerApp
      ⟨9, "n", "n_default", "a0", 0, JValue.null, JValue.null, "user"⟩
      ⟨[], 0, []⟩).1.m_registeredApp = 5 :=
  (registerApp_already_registered
    { RunningApp.new 10 101 0 "" with m_isRegistered := true, m_registeredApp := 5 }
    ⟨9, "n", "n_default", "a0", 0, JValue.null, JValue.null, "user"⟩ ⟨[], 0, []⟩ rfl).2.2.1

/-- C19 fails on the code: `close` on an app that is already in CLOSING calls
the life handler's `term` before it looks at the status.  With a handler that
does nothing, the calls made are `term`, then the completion of the task. -/
theorem close_already_closing_calls_term :
    emitted ⟨[], 1, [⟨1, 15000⟩]⟩
      ({ RunningApp.new 10 101 0 "" with
          m_lifeStatus := LifeStatus_CLOSING, m_killingTimer := 1 }.close inertHandler
        ⟨8, "n", "n_default", "a0", 0, JValue.null, JValue.null, "user"⟩
        ⟨[], 1, [⟨1, 15000⟩]⟩).2 =
      [Event.term
          { RunningApp.new 10 101 0 "" with
              m_lifeStatus := LifeStatus_CLOSING, m_killingTimer := 1 }
          ⟨8, "n", "n_default", "a0", 0, JValue.null, JValue.null, "user"⟩,
        Event.toJson ⟨8, "n", "n_default", "a0", 0, JValue.null, JValue.null, "user"⟩,
        Event.removeAfterReply
          ⟨8, "n", "n_default", "a0", 0, JValue.null, JValue.null, "user"⟩ none] := by
  rfl

/-! ### Registry -/

theorem setLifeStatus_identity (self : RunningApp) (b : LifeStatus) (sv : Services) :
    (self.setLifeStatus b sv).2.1.m_launchPoint = self.m_launchPoint ∧
    (self.setLifeStatus b sv).2.1.m_context = self.m_context ∧
    (self.setLifeStatus b sv).2.1.m_instanceId = self.m_instanceId ∧
    (self.setLifeStatus b sv).2.1.m_processId = self.m_processId ∧
    (self.setLifeStatus b sv).2.1.m_displayId = self.m_displayId := by
  cases hs : self.m_lifeStatus <;> cases b <;>
    simp [setLifeStatus, setLifeStatusSwitch, isTransition, hs, startKillingTimer_fst,
      stopKillingTimer_fst]

theorem sameIdentity_refl (w : World) : SameIdentity w w :=
  ⟨rfl, fun _ => ⟨rfl, rfl, rfl, rfl, rfl⟩⟩

theorem sameIdentity_trans {w w1 w2 : World} (h1 : SameIdentity w w1)
    (h2 : SameIdentity w1 w2) : SameIdentity w w2 := by
  refine ⟨h2.1.trans h1.1, fun q => ?_⟩
  obtain ⟨a1, a2, a3, a4, a5⟩ := h1.2 q
  obtain ⟨b1, b2, b3, b4, b5⟩ := h2.2 q
  exact ⟨b1.trans a1, b2.trans a2, b3.trans a3, b4.trans a4, b5.trans a5⟩

theorem onRemove_sameIdentity (p : Nat) (w : World) :
    SameIdentity w (RunningAppList.onRemove p w) := by
  refine ⟨by simp [RunningAppList.onRemove, postRunning], fun q => ?_⟩
  by_cases hq : q = p
  · subst hq
    rw [onRemove_objs_self]
    exact setLifeStatus_identity _ _ _
  · rw [onRemove_objs_other p q w hq]
    exact ⟨rfl, rfl, rfl, rfl, rfl⟩

theorem onAddCalls_append (xs ys : List Event) :
    onAddCalls (xs ++ ys) = onAddCalls xs ++ onAddCalls ys := by
  induction xs with
  | nil => rfl
  | cons e rest ih => cases e <;> simp [onAddCalls, ih]

theorem onRemove_trace_calls (p : Nat) (w : World) :
    ∃ tr, (RunningAppList.onRemove p w).sv.trace = w.sv.trace ++ tr ∧
      onRemoveCalls tr = [p] ∧ onAddCalls tr = [] := by
  obtain ⟨tr, htr, _, _, _, hrem, hadd⟩ := setLifeStatus_trace_quiet (w.objs p) LifeStatus_STOP
    { w.sv with trace := w.sv.trace ++ [Event.onRemove p] }
  refine ⟨[Event.onRemove p] ++ tr ++
    [Event.postRunning p ((RunningAppList.onRemove p w).objs p)], ?_, ?_, ?_⟩
  · simp [RunningAppList.onRemove, postRunning, htr]
  · simp [onRemoveCalls_append, hrem, onRemoveCalls]
  · simp [onAddCalls_append, hadd, onAddCalls]

theorem eraseAll_filter (test : World → Nat → Bool)
    (hstable : ∀ w w1, SameIdentity w w1 → ∀ q, test w1 q = test w q)
    (m : List (String × Nat)) (w : World) :
    (RunningAppList.eraseAll test m w).1 = m.filter (fun e => !test w e.2) ∧
    SameIdentity w (RunningAppList.eraseAll test m w).2 ∧
    (∃ tr, (RunningAppList.eraseAll test m w).2.sv.trace = w.sv.trace ++ tr ∧
      onRemoveCalls tr = (m.filter (fun e => test w e.2)).map Prod.snd ∧ onAddCalls tr = []) ∧
    (∀ q, q ∉ (m.filter (fun e => test w e.2)).map Prod.snd →
      (RunningAppList.eraseAll test m w).2.objs q = w.objs q) := by
  induction m generalizing w with
  | nil =>
      exact ⟨rfl, sameIdentity_refl w, ⟨[], by simp [RunningAppList.eraseAll], rfl, rfl⟩,
        fun _ _ => rfl⟩
  | cons e rest ih =>
      by_cases ht : test w e.2 = true
      · have hset := onRemove_sameIdentity e.2 w
        obtain ⟨h1, h2, ⟨tr1, htr1, hc1, ha1⟩, h4⟩ := ih (RunningAppList.onRemove e.2 w)
        obtain ⟨tr0, htr0, hc0, ha0⟩ := onRemove_trace_calls e.2 w
        have hfun : (fun x : String × Nat => test (RunningAppList.onRemove e.2 w) x.2) =
            (fun x : String × Nat => test w x.2) :=
          funext fun x => hstable w _ hset x.2
        have hfun2 : (fun x : String × Nat => !test (RunningAppList.onRemove e.2 w) x.2) =
            (fun x : String × Nat => !test w x.2) :=
          funext fun x => by rw [hstable w _ hset x.2]
        rw [hfun] at hc1 h4
        rw [hfun2] at h1
        simp only [RunningAppList.eraseAll, ht, if_true]
        refine ⟨?_, sameIdentity_trans hset h2, ⟨tr0 ++ tr1, ?_, ?_, ?_⟩, ?_⟩
        · rw [h1]
          simp [List.filter_cons, ht]
        · rw [htr1, htr0, List.append_assoc]
        · rw [onRemoveCalls_append, hc0, hc1]
          simp [List.filter_cons, ht]
        · rw [onAddCalls_append, ha0, ha1]
          rfl
        · intro q hq
          simp only [List.filter_cons, ht, if_true, List.map_cons, List.mem_cons, not_or] at hq
          rw [h4 q hq.2]
          exact onRemove_objs_other e.2 q w hq.1
      · obtain ⟨h1, h2, ⟨tr1, htr1, hc1, ha1⟩, h4⟩ := ih w
        simp only [RunningAppList.eraseAll, ht]
        refine ⟨?_, h2, ⟨tr1, htr1, ?_, ha1⟩, ?_⟩
        · simp [List.filter_cons, ht, h1]
        · rw [hc1]
          simp [List.filter_cons, ht]
        · intro q hq
          simp only [List.filter_cons, ht] at hq
          exact h4 q hq

/-- C14: cascade removal is an exact filter.  `removeAllByConext(t, c)` returns
true; the entries left are exactly those whose app type differs from `t` or
whose context differs from `c`, in their original order, and the objects they
hold are unchanged; `onRemove` is called once per erased entry, in map order,
and `onAdd` is not called. -/
theorem removeAllByConext_exact_filter (self : RunningAppList) (type : AppType)
    (context : Int) (w : World) :
    (self.removeAllByConext type context w).1 = true ∧
    (self.removeAllByConext type context w).2.1.m_map =
      self.m_map.filter
        (fun e => decide (w.getAppType e.2 ≠ type ∨ (w.objs e.2).m_context ≠ context)) ∧
    (∀ e ∈ (self.removeAllByConext type context w).2.1.m_map,
      (self.removeAllByConext type context w).2.2.objs e.2 = w.objs e.2) ∧
    onRemoveCalls (emitted w.sv (self.removeAllByConext type context w).2.2.sv) =
      (self.m_map.filter
        (fun e => decide (w.getAppType e.2 = type ∧ (w.objs e.2).m_context = context))).map
          Prod.snd ∧
    onAddCalls (emitted w.sv (self.removeAllByConext type context w).2.2.sv) = [] := by
  obtain ⟨h1, _, ⟨tr, htr, hc, ha⟩, h4⟩ := eraseAll_filter
    (fun w0 second => w0.getAppType second == type && (w0.objs second).m_context == context)
    (fun w0 w1 hs q => by simp [World.getAppType, hs.1, (hs.2 q).1, (hs.2 q).2.1])
    self.m_map w
  have hkeep : (fun e : String × Nat =>
      !(w.getAppType e.2 == type && (w.objs e.2).m_context == context)) =
      (fun e : String × Nat =>
        decide (w.getAppType e.2 ≠ type ∨ (w.objs e.2).m_context ≠ context)) := by
    funext e
    by_cases a : w.getAppType e.2 = type <;> by_cases b : (w.objs e.2).m_context = context <;>
      simp [a, b]
  have hdrop : (fun e : String × Nat =>
      (w.getAppType e.2 == type && (w.objs e.2).m_context == context)) =
      (fun e : String × Nat =>
        decide (w.getAppType e.2 = type ∧ (w.objs e.2).m_context = context)) := by
    funext e
    by_cases a : w.getAppType e.2 = type <;> by_cases b : (w.objs e.2).m_context = context <;>
      simp [a, b]
  rw [hkeep] at h1
  rw [hdrop] at hc h4
  have hm : (self.removeAllByConext type context w).2.1.m_map =
      self.m_map.filter
        (fun e => decide (w.getAppType e.2 ≠ type ∨ (w.objs e.2).m_context ≠ context)) := h1
  have htrace : (self.removeAllByConext type context w).2.2.sv.trace = w.sv.trace ++ tr := htr
  refine ⟨rfl, hm, ?_, ?_, ?_⟩
  · intro e he
    rw [hm, List.mem_filter] at he
    apply h4
    intro hin
    obtain ⟨x, hx, hxe⟩ := List.mem_map.1 hin
    rw [List.mem_filter] at hx
    have hx2 := hx.2
    have he2 := he.2
    simp only [decide_eq_true_eq] at hx2 he2
    rw [← hxe] at he2
    rcases he2 with h | h
    · exact h hx2.1
    · exact h hx2.2
  · rw [emitted_of_trace _ _ _ htrace, hc]
  · rw [emitted_of_trace _ _ _ htrace, ha]

/-- C14 at the spec's scenario (two native apps with contexts 1 and 2, one web
app with context 1): removing (Native, 1) erases exactly the entry "a0" and
calls `onRemove` once. -/
theorem removeAllByConext_exact_filter_witness :
    (exampleRegistry.removeAllByConext AppType.AppType_Native 1 exampleWorld).2.1.m_map =
      [("b0", 2), ("c0", 3)] ∧
    onRemoveCalls (emitted exampleWorld.sv
      (exampleRegistry.removeAllByConext AppType.AppType_Native 1 exampleWorld).2.2.sv) = [1] :=
  ⟨(removeAllByConext_exact_filter exampleRegistry AppType.AppType_Native 1
      exampleWorld).2.1.trans (by decide),
   (removeAllByConext_exact_filter exampleRegistry AppType.AppType_Native 1
      exampleWorld).2.2.2.1.trans (by decide)⟩

theorem mapFind_none_iff (key : String) (m : List (String × Nat)) :
    mapFind key m = none ↔ ∀ e ∈ m, e.1 ≠ key := by
  unfold mapFind
  rw [List.find?_eq_none]
  simp

theorem mapAssign_fresh (slot : Nat) (key : String) (value : Nat) (m : List (String × Nat))
    (h : mapFind key m = none) :
    mapAssign slot key value m = m.take slot ++ (key, value) :: m.drop slot := by
  have hno := (mapFind_none_iff key m).1 h
  have hany : (m.any (fun it => it.1 == key)) = false := by
    rw [List.any_eq_false]
    intro e he
    simpa using hno e he
  simp [mapAssign, hany]

theorem add_accepted (self : RunningAppList) (p slot : Nat) (w : World)
    (h : (self.add (some p) slot w).1 = true) :
    (w.objs p).m_instanceId ≠ "" ∧ mapFind (w.objs p).m_instanceId self.m_map = none ∧
    self.add (some p) slot w =
      (true,
        { m_map := self.m_map.take slot ++ ((w.objs p).m_instanceId, p) :: self.m_map.drop slot },
        onAdd p w) := by
  unfold add at h ⊢
  simp only at h ⊢
  split_ifs at h ⊢ with h1 h2
  · have hnone : mapFind (w.objs p).m_instanceId self.m_map = none := by
      cases hf : mapFind (w.objs p).m_instanceId self.m_map with
      | none => rfl
      | some x => simp [hf] at h2
    refine ⟨fun hc => h1 ((String.isEmpty_iff _).2 hc), hnone, ?_⟩
    rw [mapAssign_fresh slot _ p self.m_map hnone]

theorem onAdd_objs (p : Nat) (w : World) : (onAdd p w).objs = w.objs := by
  simp [onAdd, postRunning]

theorem getByInstanceId_absent (self : RunningAppList) (instanceId : String)
    (h : mapFind instanceId self.m_map = none) : self.getByInstanceId instanceId = none := by
  unfold getByInstanceId
  split_ifs
  · rfl
  · simp [h]

/-- C11: add/remove round trip.  In a registry whose entries are stored under
the instance ids of their objects, for every object `a` that `add` accepts:
after `add(a)`, `getByInstanceId(a.instanceId)` returns `a`; the following
`removeByInstanceId(a.instanceId)` returns true, after it
`getByInstanceId(a.instanceId)` returns none, the map is the one before the
`add`, and the objects of its entries are unchanged. -/
theorem add_remove_roundtrip (self : RunningAppList) (w : World) (p slot : Nat)
    (hkey : ∀ e ∈ self.m_map, (w.objs e.2).m_instanceId = e.1)
    (hadd : (self.add (some p) slot w).1 = true) :
    (self.add (some p) slot w).2.1.getByInstanceId (w.objs p).m_instanceId = some p ∧
    ((self.add (some p) slot w).2.1.removeByInstanceId (w.objs p).m_instanceId
      (self.add (some p) slot w).2.2).1 = true ∧
    (((self.add (some p) slot w).2.1.removeByInstanceId (w.objs p).m_instanceId
      (self.add (some p) slot w).2.2).2.1).getByInstanceId (w.objs p).m_instanceId = none ∧
    ((self.add (some p) slot w).2.1.removeByInstanceId (w.objs p).m_instanceId
      (self.add (some p) slot w).2.2).2.1.m_map = self.m_map ∧
    (∀ e ∈ self.m_map,
      ((self.add (some p) slot w).2.1.removeByInstanceId (w.objs p).m_instanceId
        (self.add (some p) slot w).2.2).2.2.objs e.2 = w.objs e.2) := by
  obtain ⟨hne, hnone, heq⟩ := add_accepted self p slot w hadd
  have hno := (mapFind_none_iff _ _).1 hnone
  have hnotake : ∀ e ∈ self.m_map.take slot,
      ¬ (((w.objs e.2).m_instanceId == (w.objs p).m_instanceId) = true) := by
    intro e he
    have hmem := List.mem_of_mem_take he
    simpa [hkey e hmem] using hno e hmem
  have hempty : (w.objs p).m_instanceId.isEmpty = false :=
    Bool.eq_false_iff.2 (fun hc => hne ((String.isEmpty_iff _).1 hc))
  have hfirst : RunningAppList.eraseFirst
      (fun second => ((onAdd p w).objs second).m_instanceId == (w.objs p).m_instanceId)
      (self.m_map.take slot ++ ((w.objs p).m_instanceId, p) :: self.m_map.drop slot) =
      some (p, self.m_map) := by
    rw [eraseFirst_eq, onAdd_objs, List.find?_append,
      List.find?_eq_none.2 (fun e he => hnotake e he), List.eraseP_append_right _ hnotake]
    simp [List.take_append_drop]
  have hrem : (self.add (some p) slot w).2.1.removeByInstanceId (w.objs p).m_instanceId
      (self.add (some p) slot w).2.2 =
      (true, { m_map := self.m_map }, RunningAppList.onRemove p (onAdd p w)) := by
    rw [heq]
    simp only [removeByInstanceId, hfirst]
  rw [hrem, heq]
  refine ⟨?_, rfl, getByInstanceId_absent _ _ hnone, rfl, ?_⟩
  · have hfind : mapFind (w.objs p).m_instanceId
        (self.m_map.take slot ++ ((w.objs p).m_instanceId, p) :: self.m_map.drop slot) =
        some ((w.objs p).m_instanceId, p) := by
      unfold mapFind
      rw [List.find?_append, List.find?_eq_none.2 (fun e he => by
        simpa using hno e (List.mem_of_mem_take he))]
      simp
    simp [getByInstanceId, hempty, hfind]
  · intro e he
    have hep : e.2 ≠ p := by
      intro hc
      apply hno e he
      rw [← hkey e he, hc]
    rw [onRemove_objs_other p e.2 _ hep, onAdd_objs]

/-- C11 on the concrete registry: the fourth object, with instance id "d0" at
address 4, is added and removed again. -/
theorem add_remove_roundtrip_witness :
    (exampleRegistry.add (some 4) 3 exampleWorldFour).1 = true ∧
    ((exampleRegistry.add (some 4) 3 exampleWorldFour).2.1.removeByInstanceId "d0"
        (exampleRegistry.add (some 4) 3 exampleWorldFour).2.2).2.1.m_map =
      exampleRegistry.m_map :=
  ⟨by decide,
   (add_remove_roundtrip exampleRegistry exampleWorldFour 4 3 (by decide) (by decide)).2.2.2.1⟩

theorem add_rejected (self : RunningAppList) (runningApp : Option Nat) (slot : Nat) (w : World)
    (h : (self.add runningApp slot w).1 = false) :
    self.add runningApp slot w = (false, self, w) := by
  unfold add at h ⊢
  cases runningApp with
  | none => rfl
  | some p =>
      simp only at h ⊢
      split_ifs at h ⊢ with h1 h2
      · rfl
      · rfl

theorem first_path_shape (test : Nat → Bool) (m : List (String × Nat)) (w : World)
    (res : Bool × RunningAppList × World)
    (hsome : ∀ found, RunningAppList.eraseFirst test m = some found →
      res = (true, { m_map := found.2 }, RunningAppList.onRemove found.1 w))
    (hnone : RunningAppList.eraseFirst test m = none → res = (false, { m_map := m }, w)) :
    res.2.1.m_map.Sublist m ∧ SameIdentity w res.2.2 := by
  rw [eraseFirst_eq] at hsome hnone
  cases hf : m.find? (fun e => test e.2) with
  | none =>
      rw [hf] at hnone
      rw [hnone rfl]
      exact ⟨List.Sublist.refl _, sameIdentity_refl w⟩
  | some e =>
      rw [hf] at hsome
      rw [hsome _ rfl]
      exact ⟨List.eraseP_sublist _, onRemove_sameIdentity e.2 w⟩

theorem keyed_of_sublist (m m1 : List (String × Nat)) (w w1 : World)
    (hkey : KeyedByInstanceId { m_map := m } w) (hnodup : (m.map Prod.fst).Nodup)
    (hsub : m1.Sublist m)
    (hid : ∀ e ∈ m, (w1.objs e.2).m_instanceId = (w.objs e.2).m_instanceId) :
    KeyedByInstanceId { m_map := m1 } w1 ∧ (m1.map Prod.fst).Nodup := by
  refine ⟨fun e he => ?_, List.Nodup.sublist (List.Sublist.map _ hsub) hnodup⟩
  have hmem : e ∈ m := hsub.subset he
  exact ⟨(hkey e hmem).1, (hid e hmem).trans (hkey e hmem).2⟩

theorem keyed_of_reachable {self : RunningAppList} {w : World}
    (h : ReachableRegistry self w) :
    KeyedByInstanceId self w ∧ (self.m_map.map Prod.fst).Nodup := by
  induction h with
  | ctor w => exact ⟨fun e he => by simp at he, by simp⟩
  | add self w runningApp slot _ ih =>
      cases hacc : (self.add runningApp slot w).1 with
      | false =>
          rw [add_rejected self runningApp slot w hacc]
          exact ih
      | true =>
          cases runningApp with
          | none => simp [RunningAppList.add] at hacc
          | some p =>
              obtain ⟨hne, hnone, heq⟩ := add_accepted self p slot w hacc
              have hno := (mapFind_none_iff _ _).1 hnone
              rw [heq]
              constructor
              · intro e he
                simp only [List.mem_append, List.mem_cons] at he
                rw [onAdd_objs]
                rcases he with he | he | he
                · exact ih.1 e (List.mem_of_mem_take he)
                · subst he
                  exact ⟨hne, rfl⟩
                · exact ih.1 e (List.mem_of_mem_drop he)
              · have hperm : (self.m_map.take slot ++
                    ((w.objs p).m_instanceId, p) :: self.m_map.drop slot).Perm
                    (((w.objs p).m_instanceId, p) :: self.m_map) := by
                  refine List.perm_middle.trans ?_
                  rw [List.take_append_drop]
                refine ((hperm.map Prod.fst).nodup_iff).2 ?_
                simp only [List.map_cons, List.nodup_cons]
                refine ⟨?_, ih.2⟩
                intro hin
                obtain ⟨e, he, hek⟩ := List.mem_map.1 hin
                exact hno e he hek
  | removeByObject self w runningApp _ ih =>
      cases runningApp with
      | none => exact ih
      | some ptr =>
          obtain ⟨hsub, hid⟩ := first_path_shape (fun second => second == ptr) self.m_map w
            (self.removeByObject (some ptr) w)
            (fun found h => by simp [RunningAppList.removeByObject, h])
            (fun h => by simp [RunningAppList.removeByObject, h])
          exact keyed_of_sublist self.m_map _ w _ ih.1 ih.2 hsub (fun e _ => (hid.2 e.2).2.2.1)
  | removeByInstanceId self w instanceId _ ih =>
      obtain ⟨hsub, hid⟩ := first_path_shape
        (fun second => (w.objs second).m_instanceId == instanceId) self.m_map w
        (self.removeByInstanceId instanceId w)
        (fun found h => by simp [RunningAppList.removeByInstanceId, h])
        (fun h => by simp [RunningAppList.removeByInstanceId, h])
      exact keyed_of_sublist self.m_map _ w _ ih.1 ih.2 hsub (fun e _ => (hid.2 e.2).2.2.1)
  | removeByPid self w pid _ ih =>
      obtain ⟨hsub, hid⟩ := first_path_shape
        (fun second => (w.objs second).m_processId == pid) self.m_map w
        (self.removeByPid pid w)
        (fun found h => by simp [RunningAppList.removeByPid, h])
        (fun h => by simp [RunningAppList.removeByPid, h])
      exact keyed_of_sublist self.m_map _ w _ ih.1 ih.2 hsub (fun e _ => (hid.2 e.2).2.2.1)
  | removeAllByType self w type _ ih =>
      obtain ⟨h1, hid, _, _⟩ := eraseAll_filter
        (fun w0 second => w0.getAppType second == type)
        (fun w0 w1 hs q => by simp [World.getAppType, hs.1, (hs.2 q).1]) self.m_map w
      have hsub : (self.removeAllByType type w).2.1.m_map.Sublist self.m_map := by
        show (RunningAppList.eraseAll _ self.m_map w).1.Sublist self.m_map
        rw [h1]
        exact List.filter_sublist _
      exact keyed_of_sublist self.m_map _ w _ ih.1 ih.2 hsub (fun e _ => (hid.2 e.2).2.2.1)
  | removeAllByConext self w type context _ ih =>
      obtain ⟨h1, hid, _, _⟩ := eraseAll_filter
        (fun w0 second =>
          w0.getAppType second == type && (w0.objs second).m_context == context)
        (fun w0 w1 hs q => by simp [World.getAppType, hs.1, (hs.2 q).1, (hs.2 q).2.1])
        self.m_map w
      have hsub : (self.removeAllByConext type context w).2.1.m_map.Sublist self.m_map := by
        show (RunningAppList.eraseAll _ self.m_map w).1.Sublist self.m_map
        rw [h1]
        exact List.filter_sublist _
      exact keyed_of_sublist self.m_map _ w _ ih.1 ih.2 hsub (fun e _ => (hid.2 e.2).2.2.1)
  | removeAllByLaunchPoint self w launchPoint _ ih =>
      obtain ⟨h1, hid, _, _⟩ := eraseAll_filter
        (fun w0 second => some (w0.objs second).m_launchPoint == launchPoint)
        (fun w0 w1 hs q => by simp [(hs.2 q).1]) self.m_map w
      have hsub : (self.removeAllByLaunchPoint launchPoint w).2.1.m_map.Sublist self.m_map := by
        show (RunningAppList.eraseAll _ self.m_map w).1.Sublist self.m_map
        rw [h1]
        exact List.filter_sublist _
      exact keyed_of_sublist self.m_map _ w _ ih.1 ih.2 hsub (fun e _ => (hid.2 e.2).2.2.1)
  | other self w w1 _ hsame ih =>
      exact keyed_of_sublist self.m_map _ w w1 ih.1 ih.2 (List.Sublist.refl _) hsame

/-- C12: the registry invariant.  In every registry reachable from the empty
registry by `add` and the removal operations, every entry is stored under the
instance id of its object, that id is not empty, and no two entries share a
key or an instance id.  `add` returns false and leaves the registry and the
world as they were (so `onAdd` is not called and nothing is published) for a
null pointer, for an object whose instance id is empty, and for an object
whose instance id is already present. -/
theorem registry_invariant (self : RunningAppList) (w : World)
    (h : ReachableRegistry self w) :
    (∀ e ∈ self.m_map, e.1 ≠ "" ∧ (w.objs e.2).m_instanceId ≠ "" ∧
      (w.objs e.2).m_instanceId = e.1) ∧
    (self.m_map.map Prod.fst).Nodup ∧
    (self.m_map.map (fun e => (w.objs e.2).m_instanceId)).Nodup ∧
    (∀ slot, self.add none slot w = (false, self, w)) ∧
    (∀ p slot, (w.objs p).m_instanceId = "" → self.add (some p) slot w = (false, self, w)) ∧
    (∀ p slot, (∃ e ∈ self.m_map, (w.objs e.2).m_instanceId = (w.objs p).m_instanceId) →
      self.add (some p) slot w = (false, self, w)) := by
  obtain ⟨hkey, hnodup⟩ := keyed_of_reachable h
  have hids : self.m_map.map (fun e => (w.objs e.2).m_instanceId) = self.m_map.map Prod.fst :=
    List.map_congr_left (fun e he => (hkey e he).2)
  refine ⟨fun e he => ⟨(hkey e he).1, ?_, (hkey e he).2⟩, hnodup, hids ▸ hnodup,
    fun _ => rfl, ?_, ?_⟩
  · rw [(hkey e he).2]
    exact (hkey e he).1
  · intro p slot hp
    have he : (w.objs p).m_instanceId.isEmpty = true := (String.isEmpty_iff _).2 hp
    simp [RunningAppList.add, he]
  · intro p slot ⟨e, he, hep⟩
    apply add_rejected
    cases hacc : (self.add (some p) slot w).1 with
    | false => rfl
    | true =>
        obtain ⟨_, hnone, _⟩ := add_accepted self p slot w hacc
        exact absurd ((hkey e he).2.symm.trans hep) ((mapFind_none_iff _ _).1 hnone e he)

/-- C12 on the registry built from the empty one by adding the object at
address 4 of `exampleWorldFour`: adding the same object again is rejected. -/
theorem registry_invariant_witness :
    ReachableRegistry
      ((RunningAppList.mk []).add (some 4) 0 exampleWorldFour).2.1
      ((RunningAppList.mk []).add (some 4) 0 exampleWorldFour).2.2 ∧
    (((RunningAppList.mk []).add (some 4) 0 exampleWorldFour).2.1.add (some 4) 0
      ((RunningAppList.mk []).add (some 4) 0 exampleWorldFour).2.2).1 = false :=
  ⟨ReachableRegistry.add _ _ (some 4) 0 (ReachableRegistry.ctor exampleWorldFour),
   congrArg Prod.fst
    ((registry_invariant _ _
      (ReachableRegistry.add _ _ (some 4) 0 (ReachableRegistry.ctor exampleWorldFour))).2.2.2.2.2
      4 0 ⟨("d0", 4), by decide, by decide⟩)⟩

/-! ### Creation -/

/-- C15: `createByLunaTask` resolves the launch point by preferring the task's
`launchPointId` and otherwise using `appId + "_default"`.  It returns null for
a null task, for a task with neither id, and for a task whose resolved launch
point id is absent from the catalog, and then changes nothing.  Otherwise it
returns a new object that is in STOP and carries the task's instance id and
display id; the registry is unchanged (the object is not added) and nothing
is published.  The status STOP holds for a `loadRequestPayload` that does not
write `m_lifeStatus`. -/
theorem createByLunaTask_resolution (self : RunningAppList) (task : LunaTask)
    (loadRequestPayload : JValue → RunningApp → RunningApp)
    (catalog : List Nat) (fresh : Nat) (processId : Int) (w : World)
    (hload : ∀ payload app, (loadRequestPayload payload app).m_lifeStatus = app.m_lifeStatus) :
    self.createByLunaTask none loadRequestPayload catalog fresh processId w =
      (none, none, self, w) ∧
    (task.launchPointId = "" → task.appId = "" →
      self.createByLunaTask (some task) loadRequestPayload catalog fresh processId w =
        (none, some task, self, w)) ∧
    (¬ (task.launchPointId = "" ∧ task.appId = "") →
      catalogGetByLaunchPointId catalog w
        (if task.launchPointId = "" then task.appId ++ "_default" else task.launchPointId)
        = none →
      self.createByLunaTask (some task) loadRequestPayload catalog fresh processId w =
        (none, some task, self, w)) ∧
    (∀ launchPoint, ¬ (task.launchPointId = "" ∧ task.appId = "") →
      catalogGetByLaunchPointId catalog w
        (if task.launchPointId = "" then task.appId ++ "_default" else task.launchPointId)
        = some launchPoint →
      (self.createByLunaTask (some task) loadRequestPayload catalog fresh processId w).1 =
        some fresh ∧
      (self.createByLunaTask (some task) loadRequestPayload catalog fresh processId w).2.2.1 =
        self ∧
      ((self.createByLunaTask (some task) loadRequestPayload catalog fresh processId
        w).2.2.2.objs fresh).m_lifeStatus = LifeStatus_STOP ∧
      ((self.createByLunaTask (some task) loadRequestPayload catalog fresh processId
        w).2.2.2.objs fresh).m_instanceId = task.instanceId ∧
      ((self.createByLunaTask (some task) loadRequestPayload catalog fresh processId
        w).2.2.2.objs fresh).m_displayId = task.displayId ∧
      (self.createByLunaTask (some task) loadRequestPayload catalog fresh processId
        w).2.2.2.sv = w.sv) := by
  have hempty : ∀ t : String, t = "" → t.isEmpty = true := fun t ht => (String.isEmpty_iff t).2 ht
  have hfull : ∀ t : String, t ≠ "" → t.isEmpty = false :=
    fun t ht => Bool.eq_false_iff.2 (fun hc => ht ((String.isEmpty_iff t).1 hc))
  refine ⟨rfl, ?_, ?_, ?_⟩
  · intro h1 h2
    simp [createByLunaTask, hempty _ h1, hempty _ h2]
  · intro hne hcat
    by_cases h1 : task.launchPointId = ""
    · have h2 : task.appId ≠ "" := fun hc => hne ⟨h1, hc⟩
      simp only [h1, if_true] at hcat
      simp [createByLunaTask, createByAppId, createByLaunchPointId, hempty _ h1, hfull _ h2,
        hcat]
    · simp only [h1, if_false] at hcat
      simp [createByLunaTask, createByLaunchPointId, hfull _ h1, hcat]
  · intro launchPoint hne hcat
    by_cases h1 : task.launchPointId = ""
    · have h2 : task.appId ≠ "" := fun hc => hne ⟨h1, hc⟩
      simp only [h1, if_true] at hcat
      simp [createByLunaTask, createByAppId, createByLaunchPointId, hempty _ h1, hfull _ h2,
        hcat, hload, RunningApp.new]
    · simp only [h1, if_false] at hcat
      simp [createByLunaTask, createByLaunchPointId, hfull _ h1, hcat, hload, RunningApp.new]

/-- C15 at the spec's scenario S1: the catalog holds "n_default" at address 10;
a task with app id "n", no launch point id, instance id "e0" and display 0
creates an object at the fresh address 5 with that instance id. -/
theorem createByLunaTask_resolution_witness :
    (exampleRegistry.createByLunaTask
      (some ⟨8, "n", "", "e0", 0, JValue.null, JValue.null, "user"⟩)
      (fun _ app => app) [10, 20] 5 0 exampleWorld).1 = some 5 ∧
    ((exampleRegistry.createByLunaTask
      (some ⟨8, "n", "", "e0", 0, JValue.null, JValue.null, "user"⟩)
      (fun _ app => app) [10, 20] 5 0 exampleWorld).2.2.2.objs 5).m_instanceId = "e0" :=
  ⟨((createByLunaTask_resolution exampleRegistry
      ⟨8, "n", "", "e0", 0, JValue.null, JValue.null, "user"⟩ (fun _ app => app) [10, 20] 5 0
      exampleWorld (fun _ _ => rfl)).2.2.2 10 (by decide) (by decide)).1,
   ((createByLunaTask_resolution exampleRegistry
      ⟨8, "n", "", "e0", 0, JValue.null, JValue.null, "user"⟩ (fun _ app => app) [10, 20] 5 0
      exampleWorld (fun _ _ => rfl)).2.2.2 10 (by decide) (by decide)).2.2.2.1⟩

/-! ### Display id, kill retry, entry into LAUNCHING, registration -/

theorem getDisplayId_of_back (instanceId : String) (back : Char)
    (h : instanceId.data.getLast? = some back) :
    getDisplayId instanceId =
      some (if 48 ≤ back.toNat ∧ back.toNat ≤ 58 then (back.toNat : Int) - 48 else 0) := by
  have h0 : (('0'.toNat : Nat) : Int) = 48 := rfl
  unfold getDisplayId
  rw [h]
  simp only [h0]
  split_ifs with c1 c2 c2
  · omega
  · rfl
  · rfl
  · omega

/-- C21 fails on the code: for every instance id that ends in the character
':' (the one after '9'), `getDisplayId` returns 10, which is outside 0..9,
because the range test is `displayId > 10`. -/
theorem getDisplayId_colon_is_ten (uid : String) :
    getDisplayId (uid ++ ":") = some 10 := by
  rw [getDisplayId_append uid ":" (by decide)]
  decide

theorem killCalls_append (xs ys : List Event) :
    killCalls (xs ++ ys) = killCalls xs ++ killCalls ys := by
  induction xs with
  | nil => rfl
  | cons e rest ih => cases e <;> simp [killCalls, ih]

theorem onKillingTimer_some (kill : RunningApp → Services → RunningApp × Services)
    (app : RunningApp) (sv : Services) :
    onKillingTimer kill (some app) sv =
      (true, some (kill app { sv with trace := sv.trace ++ [Event.kill app] }).1,
        (kill app { sv with trace := sv.trace ++ [Event.kill app] }).2) := rfl

theorem fireKillingTimer_succ (kill : RunningApp → Services → RunningApp × Services)
    (n : Nat) (app : RunningApp) (sv : Services) :
    fireKillingTimer kill (n + 1) app sv =
      (true ::
        (fireKillingTimer kill n (kill app { sv with trace := sv.trace ++ [Event.kill app] }).1
          (kill app { sv with trace := sv.trace ++ [Event.kill app] }).2).1,
       (fireKillingTimer kill n (kill app { sv with trace := sv.trace ++ [Event.kill app] }).1
          (kill app { sv with trace := sv.trace ++ [Event.kill app] }).2).2) := rfl

theorem fireKillingTimer_spec (kill : RunningApp → Services → RunningApp × Services)
    (hstatus : ∀ a s, (kill a s).1.m_lifeStatus = a.m_lifeStatus)
    (hinv : ∀ a s, TimerInv a → TimerInv (kill a s).1)
    (hquiet : ∀ a s, ∃ tr, (kill a s).2.trace = s.trace ++ tr ∧ killCalls tr = [])
    (n : Nat) (app : RunningApp) (sv : Services) (h : TimerInv app) :
    (fireKillingTimer kill n app sv).1 = List.replicate n true ∧
    (fireKillingTimer kill n app sv).2.1.m_lifeStatus = app.m_lifeStatus ∧
    TimerInv (fireKillingTimer kill n app sv).2.1 ∧
    ∃ tr, (fireKillingTimer kill n app sv).2.2.trace = sv.trace ++ tr ∧
      (killCalls tr).length = n := by
  induction n generalizing app sv with
  | zero => exact ⟨rfl, rfl, h, [], by simp [fireKillingTimer], rfl⟩
  | succ n ih =>
      rw [fireKillingTimer_succ]
      obtain ⟨tr0, htr0, hq0⟩ := hquiet app { sv with trace := sv.trace ++ [Event.kill app] }
      obtain ⟨h1, h2, h3, tr1, htr1, hl1⟩ := ih
        (kill app { sv with trace := sv.trace ++ [Event.kill app] }).1
        (kill app { sv with trace := sv.trace ++ [Event.kill app] }).2 (hinv _ _ h)
      refine ⟨?_, ?_, h3, [Event.kill app] ++ tr0 ++ tr1, ?_, ?_⟩
      · simp [h1, List.replicate_succ]
      · rw [h2, hstatus]
      · simp only [htr1, htr0, List.append_assoc]
      · simp [killCalls_append, hq0, hl1, killCalls]

/-- C22: kill-retry.  For an app in a transition state with its killing timer
armed, and a life handler whose `kill` leaves the life status as it is (and,
like every handler that acts through `setLifeStatus`, keeps the timer
invariant and does not fire the callback itself): a firing of the killing
timer calls `kill` exactly once, on this app, answers `G_SOURCE_CONTINUE` and
leaves the life status unchanged with the timer armed; after `n` deadlines all
`n` answers are `G_SOURCE_CONTINUE`, `kill` has been called `n` times and the
app is in the same transition state with the timer armed. -/
theorem killingTimer_retry (kill : RunningApp → Services → RunningApp × Services)
    (app : RunningApp) (sv : Services)
    (htrans : app.m_lifeStatus ∈ [LifeStatus_PRELOADING, LifeStatus_SPLASHING,
      LifeStatus_LAUNCHING, LifeStatus_RELAUNCHING, LifeStatus_PAUSING, LifeStatus_CLOSING])
    (harmed : app.m_killingTimer ≠ 0)
    (hstatus : ∀ a s, (kill a s).1.m_lifeStatus = a.m_lifeStatus)
    (hinv : ∀ a s, TimerInv a → TimerInv (kill a s).1)
    (hquiet : ∀ a s, ∃ tr, (kill a s).2.trace = s.trace ++ tr ∧ killCalls tr = []) :
    ((onKillingTimer kill (some app) sv).1 = true ∧
      killCalls (emitted sv (onKillingTimer kill (some app) sv).2.2) = [app] ∧
      ∃ app1, (onKillingTimer kill (some app) sv).2.1 = some app1 ∧
        app1.m_lifeStatus = app.m_lifeStatus ∧ app1.m_killingTimer ≠ 0) ∧
    ∀ n : Nat,
      (fireKillingTimer kill n app sv).1 = List.replicate n true ∧
      (killCalls (emitted sv (fireKillingTimer kill n app sv).2.2)).length = n ∧
      (fireKillingTimer kill n app sv).2.1.m_lifeStatus = app.m_lifeStatus ∧
      (fireKillingTimer kill n app sv).2.1.m_killingTimer ≠ 0 := by
  have htr : isTransition app.m_lifeStatus = true := by
    cases hs : app.m_lifeStatus <;> simp_all [isTransition]
  have h0 : TimerInv app := by
    unfold TimerInv
    exact ⟨fun _ => htr, fun _ => harmed⟩
  constructor
  · obtain ⟨tr0, htr0, hq0⟩ := hquiet app { sv with trace := sv.trace ++ [Event.kill app] }
    refine ⟨rfl, ?_, _, rfl, hstatus _ _, ?_⟩
    · have hfull : (onKillingTimer kill (some app) sv).2.2.trace =
          sv.trace ++ ([Event.kill app] ++ tr0) := by
        rw [onKillingTimer_some]
        simp only [htr0, List.append_assoc]
      rw [emitted_of_trace _ _ _ hfull]
      simp [killCalls_append, hq0, killCalls]
    · have hi := hinv app { sv with trace := sv.trace ++ [Event.kill app] } h0
      unfold TimerInv at hi
      rw [hi, hstatus]
      exact htr
  · intro n
    obtain ⟨h1, h2, h3, tr, htrn, hl⟩ := fireKillingTimer_spec kill hstatus hinv hquiet n app sv h0
    refine ⟨h1, ?_, h2, ?_⟩
    · rw [emitted_of_trace _ _ _ htrn]
      exact hl
    · unfold TimerInv at h3
      rw [h3, h2]
      exact htr

/-- C22 at the spec's scenario S4: an app in CLOSING whose launcher never
replies (its `kill` does nothing); after 3 deadlines `kill` has been called 3
times and the app is still in CLOSING. -/
theorem killingTimer_retry_witness :
    (killCalls (emitted ⟨[], 1, [⟨1, 15000⟩]⟩
      (fireKillingTimer (fun a s => (a, s)) 3
        { RunningApp.new 10 101 0 "" with
            m_lifeStatus := LifeStatus_CLOSING, m_killingTimer := 1 }
        ⟨[], 1, [⟨1, 15000⟩]⟩).2.2)).length = 3 ∧
    (fireKillingTimer (fun a s => (a, s)) 3
        { RunningApp.new 10 101 0 "" with
            m_lifeStatus := LifeStatus_CLOSING, m_killingTimer := 1 }
        ⟨[], 1, [⟨1, 15000⟩]⟩).2.1.m_lifeStatus = LifeStatus_CLOSING :=
  ⟨((killingTimer_retry (fun a s => (a, s))
      { RunningApp.new 10 101 0 "" with m_lifeStatus := LifeStatus_CLOSING, m_killingTimer := 1 }
      ⟨[], 1, [⟨1, 15000⟩]⟩ (by decide) (by decide) (fun _ _ => rfl) (fun _ _ h => h)
      (fun _ s => ⟨[], by simp, rfl⟩)).2 3).2.1,
   ((killingTimer_retry (fun a s => (a, s))
      { RunningApp.new 10 101 0 "" with m_lifeStatus := LifeStatus_CLOSING, m_killingTimer := 1 }
      ⟨[], 1, [⟨1, 15000⟩]⟩ (by decide) (by decide) (fun _ _ => rfl) (fun _ _ h => h)
      (fun _ s => ⟨[], by simp, rfl⟩)).2 3).2.2.1⟩

/-- C23: LAUNCHING is only entered from STOP or SPLASHED.  For an app whose
status `a` is not LAUNCHING, after `setLifeStatus(LAUNCHING)` the status is
LAUNCHING if and only if `a` is STOP or SPLASHED; from FOREGROUND it stays
FOREGROUND, from BACKGROUND, PAUSED or PRELOADED it becomes RELAUNCHING, and
from PRELOADING, SPLASHING, RELAUNCHING, PAUSING or CLOSING the request is
refused and the status stays `a`. -/
theorem setLifeStatus_launching_entry (self : RunningApp) (sv : Services)
    (h : self.m_lifeStatus ≠ LifeStatus_LAUNCHING) :
    ((self.setLifeStatus LifeStatus_LAUNCHING sv).2.1.m_lifeStatus = LifeStatus_LAUNCHING ↔
      self.m_lifeStatus = LifeStatus_STOP ∨ self.m_lifeStatus = LifeStatus_SPLASHED) ∧
    (self.m_lifeStatus = LifeStatus_FOREGROUND →
      (self.setLifeStatus LifeStatus_LAUNCHING sv).2.1.m_lifeStatus = LifeStatus_FOREGROUND) ∧
    (self.m_lifeStatus ∈ [LifeStatus_BACKGROUND, LifeStatus_PAUSED, LifeStatus_PRELOADED] →
      (self.setLifeStatus LifeStatus_LAUNCHING sv).2.1.m_lifeStatus = LifeStatus_RELAUNCHING) ∧
    (self.m_lifeStatus ∈ [LifeStatus_PRELOADING, LifeStatus_SPLASHING, LifeStatus_RELAUNCHING,
        LifeStatus_PAUSING, LifeStatus_CLOSING] →
      (self.setLifeStatus LifeStatus_LAUNCHING sv).1 = false ∧
      (self.setLifeStatus LifeStatus_LAUNCHING sv).2.1.m_lifeStatus = self.m_lifeStatus) := by
  cases hs : self.m_lifeStatus <;>
    simp_all [setLifeStatus, setLifeStatusSwitch, isTransition, startKillingTimer_fst,
      stopKillingTimer_fst]

/-- C23 on an app in PAUSING: the request is refused, so the app does not enter
LAUNCHING. -/
theorem setLifeStatus_launching_entry_witness :
    ({ RunningApp.new 10 101 0 "" with
        m_lifeStatus := LifeStatus_PAUSING, m_killingTimer := 1 }.setLifeStatus
      LifeStatus_LAUNCHING ⟨[], 1, [⟨1, 15000⟩]⟩).1 = false ∧
    ({ RunningApp.new 10 101 0 "" with
        m_lifeStatus := LifeStatus_PAUSING, m_killingTimer := 1 }.setLifeStatus
      LifeStatus_LAUNCHING ⟨[], 1, [⟨1, 15000⟩]⟩).2.1.m_lifeStatus = LifeStatus_PAUSING :=
  (setLifeStatus_launching_entry
    { RunningApp.new 10 101 0 "" with m_lifeStatus := LifeStatus_PAUSING, m_killingTimer := 1 }
    ⟨[], 1, [⟨1, 15000⟩]⟩ (by decide)).2.2.2 (by decide)

/-- C24: `registerApp` cannot fail on an unregistered app.  It ends with
`m_isRegistered` true and `m_registeredApp` the request of the task; the one
thing it does to the collaborators is to push one event over that request,
with `event` and `message` "registered" and `returnValue` true; the task is
not completed with an error.  The reverting branch cannot be taken:
`sendEvent` returns false exactly on an object that is not registered, and it
is called after `m_isRegistered` was set. -/
theorem registerApp_unregistered (self : RunningApp) (lunaTask : LunaTask) (sv : Services)
    (h : self.m_isRegistered = false) :
    (self.registerApp lunaTask sv).1.m_isRegistered = true ∧
    (self.registerApp lunaTask sv).1.m_registeredApp = lunaTask.request ∧
    (self.registerApp lunaTask sv).1 =
      { self with m_registeredApp := lunaTask.request, m_isRegistered := true } ∧
    emitted sv (self.registerApp lunaTask sv).2 =
      [Event.respond lunaTask.request
        (JValue.object
          [("event", JValue.string "registered"), ("message", JValue.string "registered"),
           ("returnValue", JValue.bool true)])] ∧
    respondCalls (emitted sv (self.registerApp lunaTask sv).2) =
      [(lunaTask.request,
        JValue.object
          [("event", JValue.string "registered"), ("message", JValue.string "registered"),
           ("returnValue", JValue.bool true)])] ∧
    completedTasks (emitted sv (self.registerApp lunaTask sv).2) = [] ∧
    (∀ (app : RunningApp) (payload : JValue) (s : Services),
      (app.sendEvent payload s).1 = false ↔ app.m_isRegistered = false) := by
  have hpayload : (((JValue.object []).put "event" (JValue.string "registered")).put
      "message" (JValue.string "registered")).put "returnValue" (JValue.bool true) =
      JValue.object
        [("event", JValue.string "registered"), ("message", JValue.string "registered"),
         ("returnValue", JValue.bool true)] := by rfl
  have hem : emitted sv (self.registerApp lunaTask sv).2 =
      [Event.respond lunaTask.request
        (JValue.object
          [("event", JValue.string "registered"), ("message", JValue.string "registered"),
           ("returnValue", JValue.bool true)])] := by
    apply emitted_of_trace
    simp [registerApp, h, sendEvent, hpayload]
  rw [hem]
  refine ⟨?_, ?_, ?_, rfl, rfl, rfl, ?_⟩
  · simp [registerApp, h, sendEvent]
  · simp [registerApp, h, sendEvent]
  · simp [registerApp, h, sendEvent]
  · intro app payload s
    cases hr : app.m_isRegistered <;> simp [sendEvent, hr]

/-- C24 on a freshly constructed app and a task whose request handle is 9. -/
theorem registerApp_unregistered_witness :
    ((RunningApp.new 10 101 0 "").registerApp
      ⟨9, "n", "n_default", "a0", 0, JValue.null, JValue.null, "user"⟩
      ⟨[], 0, []⟩).1.m_isRegistered = true ∧
    ((RunningApp.new 10 101 0 "").registerApp
      ⟨9, "n", "n_default", "a0", 0, JValue.null, JValue.null, "user"⟩
      ⟨[], 0, []⟩).1.m_registeredApp = 9 :=
  ⟨(registerApp_unregistered (RunningApp.new 10 101 0 "")
      ⟨9, "n", "n_default", "a0", 0, JValue.null, JValue.null, "user"⟩ ⟨[], 0, []⟩ rfl).1,
   (registerApp_unregistered (RunningApp.new 10 101 0 "")
      ⟨9, "n", "n_default", "a0", 0, JValue.null, JValue.null, "user"⟩ ⟨[], 0, []⟩ rfl).2.1⟩

/-! ### Completeness of the lookup -/

theorem getByLaunchPointIdLoop_complete (launchPointId : String) (displayId : Int) (w : World)
    (m : List (String × Nat))
    (h : ∃ e ∈ m, getLaunchPointId w e.2 = launchPointId ∧
      (displayId = -1 ∨ (w.objs e.2).m_displayId = displayId)) :
    ∃ p, getByLaunchPointIdLoop launchPointId displayId w m = some p := by
  induction m with
  | nil =>
      obtain ⟨e, he, _⟩ := h
      simp at he
  | cons x rest ih =>
      unfold getByLaunchPointIdLoop
      split_ifs with h1 h2 h3
      · exact ⟨_, rfl⟩
      · exact ⟨_, rfl⟩
      · apply ih
        obtain ⟨e, he, hlp, hd⟩ := h
        rcases List.mem_cons.1 he with hex | hex
        · subst hex
          rcases hd with hd | hd
          · exact absurd (by simpa using hd) h2
          · exact absurd (by simpa using hd) h3
        · exact ⟨e, hex, hlp, hd⟩
      · apply ih
        obtain ⟨e, he, hlp, hd⟩ := h
        rcases List.mem_cons.1 he with hex | hex
        · subst hex
          exact absurd (by simpa using hlp) h1
        · exact ⟨e, hex, hlp, hd⟩

theorem getByAppIdLoop_complete (appId : String) (displayId : Int) (w : World)
    (m : List (String × Nat))
    (h : ∃ e ∈ m, getAppId w e.2 = appId ∧
      (displayId = -1 ∨ (w.objs e.2).m_displayId = displayId)) :
    ∃ p, getByAppIdLoop appId displayId w m = some p := by
  induction m with
  | nil =>
      obtain ⟨e, he, _⟩ := h
      simp at he
  | cons x rest ih =>
      unfold getByAppIdLoop
      split_ifs with h1 h2 h3
      · exact ⟨_, rfl⟩
      · exact ⟨_, rfl⟩
      · apply ih
        obtain ⟨e, he, hlp, hd⟩ := h
        rcases List.mem_cons.1 he with hex | hex
        · subst hex
          rcases hd with hd | hd
          · exact absurd (by simpa using hd) h2
          · exact absurd (by simpa using hd) h3
        · exact ⟨e, hex, hlp, hd⟩
      · apply ih
        obtain ⟨e, he, hlp, hd⟩ := h
        rcases List.mem_cons.1 he with hex | hex
        · subst hex
          exact absurd (by simpa using hlp) h1
        · exact ⟨e, hex, hlp, hd⟩

theorem mapFind_of_mem (m : List (String × Nat)) (e : String × Nat) (he : e ∈ m)
    (hnodup : (m.map Prod.fst).Nodup) : mapFind e.1 m = some e := by
  induction m with
  | nil => simp at he
  | cons x rest ih =>
      simp only [List.map_cons, List.nodup_cons] at hnodup
      unfold mapFind
      rcases List.mem_cons.1 he with hex | hex
      · subst hex
        simp
      · have hne : x.1 ≠ e.1 := by
          intro hc
          exact hnodup.1 (hc ▸ List.mem_map_of_mem Prod.fst hex)
        rw [List.find?_cons_of_neg _ (by simpa using hne)]
        exact ih hex hnodup.2

theorem getByIds_of_found (self : RunningAppList) (instanceId launchPointId appId : String)
    (displayId : Int) (w : World) (p : Nat)
    (hfound : (if !instanceId.isEmpty then self.getByInstanceId instanceId
      else if !launchPointId.isEmpty then self.getByLaunchPointId launchPointId displayId w
      else if !appId.isEmpty then self.getByAppId appId displayId w
      else none) = some p)
    (hagree : AgreesWith w p instanceId launchPointId appId displayId) :
    self.getByIds instanceId launchPointId appId displayId w = some p := by
  obtain ⟨a1, a2, a3, a4⟩ := hagree
  have c1 : (!instanceId.isEmpty && instanceId != (w.objs p).m_instanceId) = false := by
    by_cases h : instanceId = ""
    · simp [(String.isEmpty_iff _).2 h]
    · simp [a1 h]
  have c2 : (!launchPointId.isEmpty && launchPointId != getLaunchPointId w p) = false := by
    by_cases h : launchPointId = ""
    · simp [(String.isEmpty_iff _).2 h]
    · simp [a2 h]
  have c3 : (!appId.isEmpty && appId != getAppId w p) = false := by
    by_cases h : appId = ""
    · simp [(String.isEmpty_iff _).2 h]
    · simp [a3 h]
  have c4 : (displayId != -1 && displayId != (w.objs p).m_displayId) = false := by
    by_cases h : displayId = -1
    · simp [h]
    · simp [a4 h]
  unfold getByIds
  simp only [hfound, c1, c2, c3, c4]
  simp

/-- C25: `getByIds` is complete under the registry invariant.  In a registry
(a map, so no key occurs twice) in which each key equals the instance id of
its object and objects that share a launch point id share an app id: for a
query with at least one of the three ids not empty, if some registered object
agrees with every provided field, `getByIds` returns an object, and that
object is registered and agrees with the query too; when all three ids are
empty `getByIds` returns none, whatever `displayId` is. -/
theorem getByIds_complete (self : RunningAppList) (w : World)
    (instanceId launchPointId appId : String) (displayId : Int)
    (hnodup : (self.m_map.map Prod.fst).Nodup)
    (hkey : ∀ e ∈ self.m_map, (w.objs e.2).m_instanceId = e.1)
    (hshare : ∀ e1 ∈ self.m_map, ∀ e2 ∈ self.m_map,
      getLaunchPointId w e1.2 = getLaunchPointId w e2.2 → getAppId w e1.2 = getAppId w e2.2) :
    ((instanceId ≠ "" ∨ launchPointId ≠ "" ∨ appId ≠ "") →
      (∃ e ∈ self.m_map, AgreesWith w e.2 instanceId launchPointId appId displayId) →
      ∃ p, self.getByIds instanceId launchPointId appId displayId w = some p ∧
        (∃ e ∈ self.m_map, e.2 = p) ∧
        AgreesWith w p instanceId launchPointId appId displayId) ∧
    (instanceId = "" → launchPointId = "" → appId = "" →
      self.getByIds instanceId launchPointId appId displayId w = none) := by
  have hempty : ∀ t : String, t = "" → t.isEmpty = true := fun t ht => (String.isEmpty_iff t).2 ht
  have hfull : ∀ t : String, t ≠ "" → t.isEmpty = false :=
    fun t ht => Bool.eq_false_iff.2 (fun hc => ht ((String.isEmpty_iff t).1 hc))
  have hdisp : ∀ q : Nat, (displayId ≠ -1 → (w.objs q).m_displayId = displayId) →
      (displayId = -1 ∨ (w.objs q).m_displayId = displayId) := by
    intro q hq
    by_cases hd : displayId = -1
    · exact Or.inl hd
    · exact Or.inr (hq hd)
  constructor
  · intro hsome ⟨e, he, hag⟩
    obtain ⟨a1, a2, a3, a4⟩ := hag
    by_cases hi : instanceId = ""
    · by_cases hl : launchPointId = ""
      · have ha : appId ≠ "" := by
          rcases hsome with h | h | h
          · exact absurd hi h
          · exact absurd hl h
          · exact h
        obtain ⟨p, hp⟩ := getByAppIdLoop_complete appId displayId w self.m_map
          ⟨e, he, a3 ha, hdisp e.2 a4⟩
        obtain ⟨hmem, hpa, hpd⟩ := getByAppIdLoop_some appId displayId w self.m_map p hp
        have hagp : AgreesWith w p instanceId launchPointId appId displayId :=
          ⟨fun h => absurd hi h, fun h => absurd hl h, fun _ => hpa,
            fun h => hpd.resolve_left h⟩
        refine ⟨p, getByIds_of_found self _ _ _ _ w p ?_ hagp, hmem, hagp⟩
        simp [hempty _ hi, hempty _ hl, hfull _ ha, getByAppId, hp]
      · obtain ⟨p, hp⟩ := getByLaunchPointIdLoop_complete launchPointId displayId w self.m_map
          ⟨e, he, a2 hl, hdisp e.2 a4⟩
        obtain ⟨⟨x, hx, hxp⟩, hpl, hpd⟩ :=
          getByLaunchPointIdLoop_some launchPointId displayId w self.m_map p hp
        have hagp : AgreesWith w p instanceId launchPointId appId displayId := by
          refine ⟨fun h => absurd hi h, fun _ => hpl, fun h => ?_, fun h => hpd.resolve_left h⟩
          rw [← hxp, hshare x hx e he (by rw [hxp, hpl, a2 hl])]
          exact a3 h
        refine ⟨p, getByIds_of_found self _ _ _ _ w p ?_ hagp, ⟨x, hx, hxp⟩, hagp⟩
        simp [hempty _ hi, hfull _ hl, getByLaunchPointId, hp]
    · have hek : e.1 = instanceId := (hkey e he).symm.trans (a1 hi)
      have hfind : mapFind instanceId self.m_map = some e := by
        rw [← hek]
        exact mapFind_of_mem self.m_map e he hnodup
      have hagp : AgreesWith w e.2 instanceId launchPointId appId displayId := ⟨a1, a2, a3, a4⟩
      refine ⟨e.2, getByIds_of_found self _ _ _ _ w e.2 ?_ hagp, ⟨e, he, rfl⟩, hagp⟩
      simp [hfull _ hi, getByInstanceId, hfind]
  · intro hi hl ha
    simp [getByIds, hempty _ hi, hempty _ hl, hempty _ ha]

/-- C25 on the concrete registry: the query by app id "n" on any display
returns an object. -/
theorem getByIds_complete_witness :
    ∃ p, exampleRegistry.getByIds "" "" "n" (-1) exampleWorld = some p ∧
      (∃ e ∈ exampleRegistry.m_map, e.2 = p) ∧ AgreesWith exampleWorld p "" "" "n" (-1) :=
  (getByIds_complete exampleRegistry exampleWorld "" "" "n" (-1) (by decide) (by decide)
    (by decide)).1 (Or.inr (Or.inr (by decide)))
    ⟨("c0", 3), by decide,
      ⟨fun h => absurd rfl h, fun h => absurd rfl h, fun _ => by decide, fun h => absurd rfl h⟩⟩

end Sam
